import Mathlib

/-!
# Seg3D: viewer base class, reconstruction filter adapter, reconstruction tool

A shallow embedding of

* `src/Core/Viewer/AbstractViewer.cc`
* `src/Application/BackscatterReconstruction/Filters/ReconstructionFilter.h`
* `src/Application/BackscatterReconstruction/ReconstructionTool.cc`
* `src/Interface/ToolInterface/ReconstructionToolInterface.cc`
* `src/Application/LayerManager/LayerManager.h`

Shared handles (`boost::shared_ptr`) are `Option` values: `none` is the null
handle.  Member functions take the object as their first argument and return
the object they leave behind.  Calls that leave the repository's sources
(data block conversion) are parameters of the embedding and every such call is
recorded in a trace, in program order.
-/

namespace Core

/-! ## State variables (Core/State) -/

/-- A state variable holding a `bool`. -/
structure StateBool where
  value : Bool
  deriving DecidableEq, Repr

/-- A state variable holding a string. -/
structure StateString where
  value : String
  deriving DecidableEq, Repr

/-- A state variable holding an `int` with its allowed range and step. -/
structure StateRangedInt where
  value : Int
  min_value : Int
  max_value : Int
  step : Int
  deriving DecidableEq, Repr

/-- A state variable holding a `double` with its allowed range and step; a
`double` literal is the rational number it is written as. -/
structure StateRangedDouble where
  value : ℚ
  min_value : ℚ
  max_value : ℚ
  step : ℚ
  deriving DecidableEq, Repr

/-- A state variable holding a collection of layer ids. -/
structure StateStringVector where
  value : List String
  deriving DecidableEq, Repr

/-! ## Core/Viewer/AbstractViewer.cc -/

/-- The renderer object a handle points at. -/
structure AbstractRenderer where
  id : Nat
  deriving DecidableEq, Repr

/-- The texture object a handle points at. -/
structure Texture2D where
  id : Nat
  deriving DecidableEq, Repr

abbrev AbstractRendererHandle := Option AbstractRenderer

abbrev Texture2DHandle := Option Texture2D

/-- A slot of `AbstractViewerPrivate` that `install_renderer` binds to a signal. -/
inductive ViewerSlot where
  | set_texture
  | set_overlay_texture
  deriving DecidableEq, Repr

/-- A signal of a renderer that the viewer connects to. -/
inductive RendererSignal where
  | redraw_completed_signal_
  | redraw_overlay_completed_signal_
  deriving DecidableEq, Repr

/-- One entry of the connection list kept by `add_connection`. -/
structure Connection where
  renderer : AbstractRenderer
  signal : RendererSignal
  slot : ViewerSlot
  deriving DecidableEq, Repr

/-- The members of `class AbstractViewerPrivate` (the back pointer `viewer_` is
the enclosing `AbstractViewer` value). -/
structure AbstractViewerPrivate where
  renderer_ : AbstractRendererHandle
  width_ : Int
  height_ : Int
  texture_ : Texture2DHandle
  overlay_texture_ : Texture2DHandle
  deriving DecidableEq, Repr

/-- What an observer of the viewer sees happen, in program order. -/
inductive ViewerEvent where
  | texture_stored (texture : Texture2DHandle)
  | overlay_texture_stored (texture : Texture2DHandle)
  | update_display_signal_
  deriving DecidableEq, Repr

/-- The viewer: the `StateHandler` base (id, version, registered states), the
private part, the connections made so far and the observable events.  The
state handle is null until `add_state` fills it. -/
structure AbstractViewer where
  statehandler_id_ : String
  version_number_ : Nat
  state_keys_ : List String
  viewer_visible_state_ : Option StateBool
  private_ : AbstractViewerPrivate
  connections_ : List Connection
  events_ : List ViewerEvent
  deriving DecidableEq, Repr

/-- The expression `new AbstractViewerPrivate`: the class has no constructor, so the three
handles are default constructed (null) and the two `int` members hold
whatever the allocation left there, here `w` and `h`. -/
def AbstractViewerPrivate.new (w h : Int) : AbstractViewerPrivate :=
  { renderer_ := none, width_ := w, height_ := h, texture_ := none, overlay_texture_ := none }

/-- Modelled from the spec: `StateHandler::add_state( key, state, default )`
is declared outside the sources; a StateHandler holds "UI-bound values with
change signals", and adding a state creates the state variable behind the
handle with the default value it is given. -/
def add_state_bool (default_value : Bool) : Option StateBool :=
  some { value := default_value }

/-- The constructor `AbstractViewer::AbstractViewer( viewer_id, version_number )`.  The
arguments `w` and `h` are the indeterminate contents of the two `int` members
before the constructor body runs. -/
def AbstractViewer.new (viewer_id version_number : Nat) (w h : Int) : AbstractViewer :=
  let this : AbstractViewer :=
    { statehandler_id_ := "viewer" ++ toString viewer_id,
      version_number_ := version_number,
      state_keys_ := [],
      viewer_visible_state_ := none,
      private_ := AbstractViewerPrivate.new w h,
      connections_ := [],
      events_ := [] }
  -- ensure these are initialized
  let this := { this with private_ := { this.private_ with width_ := 0 } }
  let this := { this with private_ := { this.private_ with height_ := 0 } }
  { this with state_keys_ := this.state_keys_ ++ ["viewer_visible"],
              viewer_visible_state_ := add_state_bool false }

/-- How a call of a member function ends. -/
inductive Outcome where
  | returned
  | logic_error (message : String)
  | null_dereference
  deriving DecidableEq, Repr

/-- The member `ConnectionHandler::add_connection`: remember the connection. -/
def AbstractViewer.add_connection (v : AbstractViewer) (c : Connection) : AbstractViewer :=
  { v with connections_ := v.connections_ ++ [c] }

/-- The member `AbstractViewer::install_renderer( renderer )`.  After the guarded assignment
the code dereferences `private_->renderer_` to reach the renderer's signals;
on a null handle that is the outcome `null_dereference`. -/
def AbstractViewer.install_renderer (v : AbstractViewer) (renderer : AbstractRendererHandle) :
    Outcome × AbstractViewer :=
  if v.private_.renderer_.isSome then
    (Outcome.logic_error "Cannot install renderer twice into viewer", v)
  else
    let v1 := { v with private_ := { v.private_ with renderer_ := renderer } }
    match v1.private_.renderer_ with
    | none => (Outcome.null_dereference, v1)
    | some r =>
      let v2 := v1.add_connection
        { renderer := r, signal := RendererSignal.redraw_completed_signal_,
          slot := ViewerSlot.set_texture }
      let v3 := v2.add_connection
        { renderer := r, signal := RendererSignal.redraw_overlay_completed_signal_,
          slot := ViewerSlot.set_overlay_texture }
      (Outcome.returned, v3)

/-- The slot `AbstractViewerPrivate::set_texture( texture, delay_update )`. -/
def AbstractViewer.set_texture (v : AbstractViewer) (texture : Texture2DHandle)
    (delay_update : Bool) : AbstractViewer :=
  let v1 := { v with private_ := { v.private_ with texture_ := texture },
                     events_ := v.events_ ++ [ViewerEvent.texture_stored texture] }
  if !delay_update then
    { v1 with events_ := v1.events_ ++ [ViewerEvent.update_display_signal_] }
  else v1

/-- The slot `AbstractViewerPrivate::set_overlay_texture( texture, delay_update )`. -/
def AbstractViewer.set_overlay_texture (v : AbstractViewer) (texture : Texture2DHandle)
    (delay_update : Bool) : AbstractViewer :=
  let v1 := { v with private_ := { v.private_ with overlay_texture_ := texture },
                     events_ := v.events_ ++ [ViewerEvent.overlay_texture_stored texture] }
  if !delay_update then
    { v1 with events_ := v1.events_ ++ [ViewerEvent.update_display_signal_] }
  else v1

def AbstractViewer.get_renderer (v : AbstractViewer) : AbstractRendererHandle :=
  v.private_.renderer_

def AbstractViewer.get_texture (v : AbstractViewer) : Texture2DHandle :=
  v.private_.texture_

def AbstractViewer.get_overlay_texture (v : AbstractViewer) : Texture2DHandle :=
  v.private_.overlay_texture_

def AbstractViewer.get_width (v : AbstractViewer) : Int :=
  v.private_.width_

def AbstractViewer.get_height (v : AbstractViewer) : Int :=
  v.private_.height_

/-! ## Types of Core/DataBlock and Core/Volume used by the filter adapter -/

/-- The value types a filter is instantiated at, as listed by
`SCI_BEGIN_TYPED_ITK_RUN`; `GetDataType( (T*) 0 )` names the type `T`. -/
inductive DataType where
  | CHAR_E
  | UCHAR_E
  | SHORT_E
  | USHORT_E
  | INT_E
  | UINT_E
  | FLOAT_E
  | DOUBLE_E
  deriving DecidableEq, Repr

/-- The layer kinds.  The sources name `DATA_E` and `MASK_E`; the remaining
enumerators of the header are `other code`. -/
inductive VolumeType where
  | DATA_E
  | MASK_E
  | other (code : Nat)
  deriving DecidableEq, Repr

/-- A value of `Core::Transform`; it is only copied and compared here. -/
structure Transform where
  tag : Nat
  deriving DecidableEq, Repr

/-- The default constructed `Core::Transform transform;`. -/
def Transform.default_constructed : Transform := { tag := 0 }

structure DataBlock where
  id : Nat
  deriving DecidableEq, Repr

structure MaskDataBlock where
  id : Nat
  deriving DecidableEq, Repr

abbrev DataBlockHandle := Option DataBlock

abbrev MaskDataBlockHandle := Option MaskDataBlock

/-- What the filter reads of a `DataVolume`. -/
structure DataVolume where
  data_type : DataType
  data_block : DataBlockHandle
  transform : Transform
  deriving DecidableEq, Repr

/-- What the filter reads of a `MaskVolume`. -/
structure MaskVolume where
  mask_data_block : MaskDataBlockHandle
  transform : Transform
  deriving DecidableEq, Repr

/-- The object `Core::ITKImageDataT<T>( data_block, transform )`. -/
structure ITKImageDataT where
  value_type : DataType
  data_block : DataBlockHandle
  transform : Transform
  deriving DecidableEq, Repr

abbrev ITKImageDataHandle := Option ITKImageDataT

/-- The expression `Handle( new Core::ITKImageDataT<T>( data_block, transform ) )`.  A
`new` expression yields a pointer to the object it built (its failure is the
exception `std::bad_alloc`, not a null pointer), so the handle is non-null. -/
def ITKImageDataT.new (T : DataType) (data_block : DataBlockHandle) (transform : Transform) :
    ITKImageDataHandle :=
  some { value_type := T, data_block := data_block, transform := transform }

/-- The member `image.reset()`. -/
def ITKImageDataHandle.reset (_image : ITKImageDataHandle) : ITKImageDataHandle := none

/-- The conversion routines of `Core::DataBlock` and
`Core::MaskDataBlockManager`, which are outside the sources.  Each returns
its `bool` result and the value it leaves in the output handle.  A `double`
argument is the rational number it denotes. -/
structure DataBlockServices where
  ConvertDataType : DataBlockHandle → DataType → Bool × DataBlockHandle
  Convert : MaskDataBlockHandle → DataType → Bool → Bool × DataBlockHandle
  ConvertLabel : MaskDataBlockHandle → DataType → ℚ → Bool × DataBlockHandle

end Core

namespace Seg3D

open Core

/-! ## Application/BackscatterReconstruction/Filters/ReconstructionFilter.h -/

/-- A layer: a `DataLayer` (`get_type()` is `DATA_E`) with its data volume, a
`MaskLayer` (`MASK_E`) with its mask volume, or a layer of another kind. -/
inductive Layer where
  | DataLayer (volume : DataVolume)
  | MaskLayer (volume : MaskVolume)
  | OtherLayer (code : Nat)
  deriving DecidableEq, Repr

def Layer.get_type : Layer → VolumeType
  | Layer.DataLayer _ => VolumeType.DATA_E
  | Layer.MaskLayer _ => VolumeType.MASK_E
  | Layer.OtherLayer code => VolumeType.other code

/-- A call the filter makes that is visible outside it, with its arguments. -/
inductive FilterEffect where
  | ConvertDataType (src : DataBlockHandle) (data_type : DataType)
  | Convert (mask : MaskDataBlockHandle) (data_type : DataType) (invert : Bool)
  | ConvertLabel (mask : MaskDataBlockHandle) (data_type : DataType) (label : ℚ)
  | report_error (message : String)
  deriving DecidableEq, Repr

/-- What a call leaves behind: the `bool` it returns, the image handle passed
by reference, and the calls it made, in order. -/
structure FilterResult where
  returned : Bool
  image : ITKImageDataHandle
  effects : List FilterEffect
  deriving DecidableEq, Repr

/-- The common tail of both retrieval functions ("Create a new ITK Image
wrapper" to "Success"); `effects` are the calls made before it. -/
def wrap_itk_image (T : DataType) (data_block : DataBlockHandle) (transform : Transform)
    (effects : List FilterEffect) : FilterResult :=
  let image := ITKImageDataT.new T data_block transform
  if image.isNone then
    { returned := false, image := image,
      effects := effects ++ [FilterEffect.report_error "Could not allocate enough memory."] }
  else
    -- Success
    { returned := true, image := image, effects := effects }

/-- The template `ReconstructionFilter::get_itk_image_from_layer<T>( layer, image, invert )`. -/
def get_itk_image_from_layer (ext : DataBlockServices) (T : DataType) (layer : Layer)
    (image : ITKImageDataHandle) (invert : Bool) : FilterResult :=
  -- Clear the handle
  let image := ITKImageDataHandle.reset image
  match layer with
  | Layer.DataLayer volume =>
    -- If the data is in the right format: do not convert the data
    if volume.data_type = T then
      wrap_itk_image T volume.data_block volume.transform []
    else
      let r := ext.ConvertDataType volume.data_block T
      if !r.1 then
        { returned := false, image := image,
          effects := [FilterEffect.ConvertDataType volume.data_block T,
                      FilterEffect.report_error "Could not allocate enough memory."] }
      else
        wrap_itk_image T r.2 volume.transform [FilterEffect.ConvertDataType volume.data_block T]
  | Layer.MaskLayer volume =>
    -- We always need to convert the data
    let r := ext.Convert volume.mask_data_block T invert
    if !r.1 then
      { returned := false, image := image,
        effects := [FilterEffect.Convert volume.mask_data_block T invert,
                    FilterEffect.report_error "Could not allocate enough memory."] }
    else
      wrap_itk_image T r.2 volume.transform [FilterEffect.Convert volume.mask_data_block T invert]
  | Layer.OtherLayer _ =>
    -- Unknown data type
    { returned := false, image := image, effects := [] }

/-- The call `get_itk_image_from_layer<T>( layer, image )`: `invert` takes its default. -/
def get_itk_image_from_layer_omitted (ext : DataBlockServices) (T : DataType) (layer : Layer)
    (image : ITKImageDataHandle) : FilterResult :=
  get_itk_image_from_layer ext T layer image false

/-- The template `ReconstructionFilter::get_itk_image_from_mask_layer<T>( layer, image, label )`. -/
def get_itk_image_from_mask_layer (ext : DataBlockServices) (T : DataType) (layer : Layer)
    (image : ITKImageDataHandle) (label : ℚ) : FilterResult :=
  -- Clear the handle
  let image := ITKImageDataHandle.reset image
  match layer with
  | Layer.MaskLayer volume =>
    -- We always need to convert the data
    let r := ext.ConvertLabel volume.mask_data_block T label
    if !r.1 then
      { returned := false, image := image,
        effects := [FilterEffect.ConvertLabel volume.mask_data_block T label,
                    FilterEffect.report_error "Could not allocate enough memory."] }
    else
      wrap_itk_image T r.2 volume.transform
        [FilterEffect.ConvertLabel volume.mask_data_block T label]
  | _ =>
    -- `layer->get_type() != Core::VolumeType::MASK_E`
    { returned := false, image := image, effects := [] }

/-- The call `get_itk_image_from_mask_layer<T>( layer, image )`: `label` takes its default 1.0. -/
def get_itk_image_from_mask_layer_omitted (ext : DataBlockServices) (T : DataType)
    (layer : Layer) (image : ITKImageDataHandle) : FilterResult :=
  get_itk_image_from_mask_layer ext T layer image 1.0

/-- The errors a call reported. -/
def FilterResult.errors (r : FilterResult) : List String :=
  r.effects.filterMap fun e =>
    match e with
    | FilterEffect.report_error message => some message
    | _ => none

/-- The conversions a call made (every recorded call that is not an error report). -/
def FilterResult.conversions (r : FilterResult) : List FilterEffect :=
  r.effects.filter fun e =>
    match e with
    | FilterEffect.report_error _ => false
    | _ => true

/-! ## Application/BackscatterReconstruction/ReconstructionTool.cc -/

/-- Modelled from the spec: `StateHandler::add_state( key, state, default )`
is declared outside the sources; it creates the state variable behind the
handle with the default value it is given. -/
def add_state_string (default_value : String) : Option StateString :=
  some { value := default_value }

/-- Modelled from the spec: `StateHandler::add_state( key, state, default,
min, max, step )` for an `int` state, declared outside the sources; the
state variable holds the four values as given. -/
def add_state_ranged_int (default_value min_value max_value step : Int) :
    Option StateRangedInt :=
  some { value := default_value, min_value := min_value, max_value := max_value, step := step }

/-- Modelled from the spec: `StateHandler::add_state( key, state, default,
min, max, step )` for a `double` state, declared outside the sources; the
state variable holds the four values as given. -/
def add_state_ranged_double (default_value min_value max_value step : ℚ) :
    Option StateRangedDouble :=
  some { value := default_value, min_value := min_value, max_value := max_value, step := step }

/-- Modelled from the spec: `StateHandler::add_state( key, state )` without
a default, declared outside the sources; the collection it creates is empty. -/
def add_state_string_vector : Option StateStringVector :=
  some { value := [] }

/-- A signal the tool connects one of its private slots to. -/
inductive ToolConnection where
  | outputDirectory_state_changed_to_handleOutputDirChanged
  | layer_inserted_to_handle_layer_group_insert
  deriving DecidableEq, Repr

/-- The members of `ReconstructionTool` that its constructor sets; a state
handle is null until `add_state` fills it. -/
structure ReconstructionTool where
  toolid_ : String
  target_type_ : VolumeType
  state_keys_ : List String
  input_data_id_ : Option StateString
  iterations_state_ : Option StateRangedInt
  xyVoxelSizeScale_state_ : Option StateRangedDouble
  zVoxelSizeScale_state_ : Option StateRangedDouble
  initialGuessSet_state_ : Option StateStringVector
  outputDirectory_state_ : Option StateString
  connections_ : List ToolConnection
  deriving DecidableEq, Repr

/-- The base part `SingleTargetTool( Core::VolumeType::MASK_E, toolid )` with the handles
of the derived class still null. -/
def SingleTargetTool.new (target_type : VolumeType) (toolid : String) : ReconstructionTool :=
  { toolid_ := toolid, target_type_ := target_type, state_keys_ := [],
    input_data_id_ := none, iterations_state_ := none, xyVoxelSizeScale_state_ := none,
    zVoxelSizeScale_state_ := none, initialGuessSet_state_ := none,
    outputDirectory_state_ := none, connections_ := [] }

/-- The constructor `ReconstructionTool::ReconstructionTool( toolid )`. -/
def ReconstructionTool.new (toolid : String) : ReconstructionTool :=
  let this := SingleTargetTool.new VolumeType.MASK_E toolid
  let this := { this with state_keys_ := this.state_keys_ ++ ["input_data_id"],
                          input_data_id_ := add_state_string "<none>" }
  let this := { this with state_keys_ := this.state_keys_ ++ ["iterations"],
                          iterations_state_ := add_state_ranged_int 3 1 100 1 }
  let this := { this with state_keys_ := this.state_keys_ ++ ["xyVoxelSizeScale"],
                          xyVoxelSizeScale_state_ := add_state_ranged_double 0.5 0.01 10.0 0.01 }
  let this := { this with state_keys_ := this.state_keys_ ++ ["zVoxelSizeScale"],
                          zVoxelSizeScale_state_ := add_state_ranged_double 0.5 0.01 10.0 0.01 }
  let this := { this with state_keys_ := this.state_keys_ ++ ["initialGuessSet"],
                          initialGuessSet_state_ := add_state_string_vector }
  let this := { this with state_keys_ := this.state_keys_ ++ ["outputDirectory"],
                          outputDirectory_state_ := add_state_string "" }
  let this := { this with connections_ := this.connections_ ++
    [ToolConnection.outputDirectory_state_changed_to_handleOutputDirChanged] }
  { this with connections_ := this.connections_ ++
    [ToolConnection.layer_inserted_to_handle_layer_group_insert] }

end Seg3D

namespace Seg3D

open Core

/-! ## Sample inputs -/

/-- Conversion routines that always succeed and hand back data block 9. -/
def services_succeeding : DataBlockServices :=
  { ConvertDataType := fun _ _ => (true, some { id := 9 }),
    Convert := fun _ _ _ => (true, some { id := 9 }),
    ConvertLabel := fun _ _ _ => (true, some { id := 9 }) }

/-- Conversion routines that always fail and leave the output handle null. -/
def services_failing : DataBlockServices :=
  { ConvertDataType := fun _ _ => (false, none),
    Convert := fun _ _ _ => (false, none),
    ConvertLabel := fun _ _ _ => (false, none) }

/-- A data volume of `float` values in data block 7. -/
def sample_data_volume : DataVolume :=
  { data_type := DataType.FLOAT_E, data_block := some { id := 7 }, transform := { tag := 3 } }

/-- A mask volume on mask data block 5. -/
def sample_mask_volume : MaskVolume :=
  { mask_data_block := some { id := 5 }, transform := { tag := 4 } }

end Seg3D

namespace Seg3D

open Core

/-! ## Interface/ToolInterface/ReconstructionToolInterface.cc -/

/-- The tool's widget: the arguments `progress_bar_->setValue` has been called
with, oldest first. -/
structure ReconstructionToolInterface where
  progress_bar_ : List ℚ
  deriving DecidableEq, Repr

/-- A guarded pointer `QPointer< ReconstructionToolInterface >`: null, or the
address of a widget.  It reads as null once that widget is gone. -/
abbrev qpointer_type := Option Nat

/-- An event posted to the interface thread: a bound call of `UpdateProgress`. -/
inductive InterfaceEvent where
  | UpdateProgress (qpointer : qpointer_type) (progress : ℚ)
  deriving DecidableEq, Repr

/-- What `UpdateProgress` reads and writes outside its arguments: the thread
it runs on, whether the application is closing down, the widgets alive at
each address, and the events posted to the interface thread. -/
structure InterfaceWorld where
  IsInterfaceThread : Bool
  closingDown : Bool
  widgets : Nat → Option ReconstructionToolInterface
  posted_events : List InterfaceEvent

/-- The member `qpointer.data()`: the widget pointed at, null for a null pointer or a
widget that is gone. -/
def InterfaceWorld.data (world : InterfaceWorld) (qpointer : qpointer_type) :
    Option ReconstructionToolInterface :=
  qpointer.bind world.widgets

/-- The member `ReconstructionToolInterface::update_progress_bar( progress )`. -/
def ReconstructionToolInterface.update_progress_bar (w : ReconstructionToolInterface)
    (progress : ℚ) : ReconstructionToolInterface :=
  { w with progress_bar_ := w.progress_bar_ ++ [progress] }

/-- The static member `ReconstructionToolInterface::UpdateProgress( qpointer, progress )`.  The
call `qpointer->update_progress_bar` dereferences the pointer; on a null
pointer that is the outcome `null_dereference`. -/
def ReconstructionToolInterface.UpdateProgress (world : InterfaceWorld)
    (qpointer : qpointer_type) (progress : ℚ) : Outcome × InterfaceWorld :=
  -- Hand it off to the right thread
  if !world.IsInterfaceThread then
    (Outcome.returned,
      { world with posted_events :=
          world.posted_events ++ [InterfaceEvent.UpdateProgress qpointer progress] })
  else
    -- When we are finally on the interface thread run this code:
    if (world.data qpointer).isSome && !world.closingDown then
      match qpointer, world.data qpointer with
      | some address, some widget =>
        (Outcome.returned,
          { world with widgets := fun a =>
              if a = address then some (widget.update_progress_bar progress)
              else world.widgets a })
      | _, _ => (Outcome.null_dereference, world)
    else
      (Outcome.returned, world)

/-- Running a posted event: the bound call is made. -/
def InterfaceEvent.run (world : InterfaceWorld) : InterfaceEvent → Outcome × InterfaceWorld
  | InterfaceEvent.UpdateProgress qpointer progress =>
    ReconstructionToolInterface.UpdateProgress world qpointer progress

end Seg3D

namespace Core

/-! ## The type `double`

A `double` is an IEEE 754 binary64 value: a NaN, an infinity, the negative
zero, or a rational number with a 53 bit significand (the positive zero is
`finite 0`).  The result of an operation is the exact result rounded to the
nearest such value, ties to the even significand, and an infinity when the
rounded magnitude reaches `2 ^ 1024`. -/

/-- The nearest integer, the even one of the two when `x` lies half way. -/
def round_half_even (x : ℚ) : ℤ :=
  if x - ⌊x⌋ < 1 / 2 then ⌊x⌋
  else if 1 / 2 < x - ⌊x⌋ then ⌊x⌋ + 1
  else if ⌊x⌋ % 2 = 0 then ⌊x⌋
  else ⌊x⌋ + 1

/-- The spacing of binary64 values around the magnitude `m`: 52 binary places
below its leading bit, and `2 ^ (-1074)` for the subnormal magnitudes. -/
def ulp (m : ℚ) : ℚ := (2 : ℚ) ^ (max (Int.log 2 m) (-1022) - 52)

/-- A magnitude rounded to the nearest multiple of its spacing. -/
def round_magnitude (m : ℚ) : ℚ := round_half_even (m / ulp m) * ulp m

/-- Round to nearest, ties to even, before the exponent range is cut off. -/
def round_binary64 (r : ℚ) : ℚ :=
  if r < 0 then -round_magnitude (-r) else round_magnitude r

/-- The magnitude from which a rounded result is an infinity. -/
def overflow_threshold : ℚ := (2 : ℚ) ^ (1024 : ℤ)

/-- A value of the C++ type `double`. -/
inductive Double where
  | nan
  | inf (negative : Bool)
  | negzero
  | finite (value : ℚ)
  deriving DecidableEq, Repr

def Double.signbit : Double → Bool
  | Double.nan => false
  | Double.inf negative => negative
  | Double.negzero => true
  | Double.finite value => decide (value < 0)

/-- The number a finite value stands for (0 for the others). -/
def Double.toRat : Double → ℚ
  | Double.finite value => value
  | _ => 0

def Double.is_finite : Double → Bool
  | Double.finite _ => true
  | Double.negzero => true
  | _ => false

def Double.is_zero : Double → Bool
  | Double.finite value => decide (value = 0)
  | Double.negzero => true
  | _ => false

/-- The values of the type: a finite one is a number that rounding leaves as
it is, below the overflow threshold in magnitude. -/
def Double.is_binary64 : Double → Prop
  | Double.finite value => round_binary64 value = value ∧ |value| < overflow_threshold
  | _ => True

/-- The `double` for the exact result `r` of an operation on finite values;
`zero_negative` is the sign the operation gives to an exact zero. -/
def Double.of_exact (zero_negative : Bool) (r : ℚ) : Double :=
  if overflow_threshold ≤ round_binary64 r then Double.inf false
  else if round_binary64 r ≤ -overflow_threshold then Double.inf true
  else if round_binary64 r = 0 then
    if (if r = 0 then zero_negative else decide (r < 0)) then Double.negzero
    else Double.finite 0
  else Double.finite (round_binary64 r)

/-- The operator `a * b` on `double`. -/
def Double.mul (a b : Double) : Double :=
  match a, b with
  | Double.nan, _ => Double.nan
  | _, Double.nan => Double.nan
  | Double.inf s, b => if b.is_zero then Double.nan else Double.inf (xor s b.signbit)
  | a, Double.inf t => if a.is_zero then Double.nan else Double.inf (xor a.signbit t)
  | a, b => Double.of_exact (xor a.signbit b.signbit) (a.toRat * b.toRat)

/-- The operator `a + b` on `double`. -/
def Double.add (a b : Double) : Double :=
  match a, b with
  | Double.nan, _ => Double.nan
  | _, Double.nan => Double.nan
  | Double.inf s, Double.inf t => if s = t then Double.inf s else Double.nan
  | Double.inf s, _ => Double.inf s
  | _, Double.inf t => Double.inf t
  | a, b => Double.of_exact (a.signbit && b.signbit) (a.toRat + b.toRat)

/-- The comparison `a <= b` on `double`: false when either side is a NaN. -/
def Double.le (a b : Double) : Bool :=
  match a, b with
  | Double.nan, _ => false
  | _, Double.nan => false
  | Double.inf true, _ => true
  | _, Double.inf false => true
  | Double.inf false, _ => false
  | _, Double.inf true => false
  | a, b => decide (a.toRat ≤ b.toRat)

/-- The comparison `a == b` on `double`: false when either side is a NaN, true
for the two zeros. -/
def Double.eq (a b : Double) : Bool :=
  match a, b with
  | Double.nan, _ => false
  | _, Double.nan => false
  | Double.inf s, Double.inf t => s == t
  | Double.inf _, _ => false
  | _, Double.inf _ => false
  | a, b => decide (a.toRat = b.toRat)

end Core

namespace Seg3D

open Core

/-! ## ReconstructionToolPrivate::update_progress -/

/-- What `update_progress` and `reset_progress` do that is visible outside. -/
inductive ToolEffect where
  | cerr (text : String) (amount : Option Double)
  | update_progress_signal_ (value : Double)
  | reset_progress_signal_
  deriving DecidableEq, Repr

/-- The member `ReconstructionToolPrivate::update_progress( amount, progress_start,
progress_amount )`. -/
def ReconstructionToolPrivate.update_progress
    (amount progress_start progress_amount : Double) : List ToolEffect :=
  [ToolEffect.cerr "ReconstructionToolPrivate::update_progress: " (some amount),
   ToolEffect.update_progress_signal_ (progress_start.add (amount.mul progress_amount))]

/-- The call `update_progress( amount )`: `progress_start` and `progress_amount` take
their defaults `0.0f` and `1.0f`. -/
def ReconstructionToolPrivate.update_progress_omitted (amount : Double) : List ToolEffect :=
  ReconstructionToolPrivate.update_progress amount (Double.finite 0.0) (Double.finite 1.0)

/-- The values a run emitted through `update_progress_signal_`, in order. -/
def emitted_progress (effects : List ToolEffect) : List Double :=
  effects.filterMap fun e =>
    match e with
    | ToolEffect.update_progress_signal_ value => some value
    | _ => none

/-- The `double` nearest to 0.1. -/
def double_0_1 : Double := Double.finite (3602879701896397 / 2 ^ 55)

/-- The `double` nearest to 0.2. -/
def double_0_2 : Double := Double.finite (3602879701896397 / 2 ^ 54)

end Seg3D

namespace Seg3D

open Core

/-! ## Application/LayerManager/LayerManager.h

The header declares the locking interface and documents it; the bodies are
outside the sources, so each function below follows its documentation. -/

/-- The values of a layer's `data_state` that the header names. -/
inductive DataState where
  | AVAILABLE_C
  | CREATING_C
  | PROCESSING_C
  | IN_USE_C
  deriving DecidableEq, Repr

/-- The type `Layer::filter_key_type`, built from an integer as in `filter_key_type( 0 )`. -/
abbrev filter_key_type := Int

abbrev ProvenanceID := Int

/-- A data volume or a mask volume. -/
inductive Volume where
  | data (volume : DataVolume)
  | mask (volume : MaskVolume)
  deriving DecidableEq, Repr

abbrev VolumeHandle := Option Volume

/-- A layer as the layer manager sees it: its name and kind, the state that
tracks locking, the key of the process that locked it, its volume and the
provenance id that came with the volume (none for a layer without one). -/
structure ManagedLayer where
  name : String
  type : VolumeType
  transform : Transform
  meta_data : String
  data_state : DataState
  filter_key : filter_key_type
  volume : VolumeHandle
  provenance_id : Option ProvenanceID
  deriving DecidableEq, Repr

/-- The context an action reports into. -/
structure ActionContext where
  reports : List String
  deriving DecidableEq, Repr

/-- The two single-case checks `CheckLayerAvailabilityForProcessing` and
`CheckLayerAvailabilityForUse`, whose bodies are outside the sources: each
returns its `bool` and the context it leaves behind. -/
structure AvailabilityChecks where
  CheckLayerAvailabilityForProcessing : String → ActionContext → Bool × ActionContext
  CheckLayerAvailabilityForUse : String → ActionContext → Bool × ActionContext

/-- Modelled from the spec: the body of `LayerManager::CheckLayerAvailability`
is missing; "This case processes both of the above cases: if replace is true,
it will check for processing (write) access, if it is not replaced, it will
look for use (read) access". -/
def LayerManager.CheckLayerAvailability (checks : AvailabilityChecks) (layer_id : String)
    (replace : Bool) (context : ActionContext) : Bool × ActionContext :=
  if replace then
    checks.CheckLayerAvailabilityForProcessing layer_id context
  else
    checks.CheckLayerAvailabilityForUse layer_id context

/-- Modelled from the spec: the body of `LayerManager::LockForUse` is missing;
"Change the layer data_state to IN_USE_C", with the key of the locking process
kept in the layer. -/
def LayerManager.LockForUse (layer : ManagedLayer) (key : filter_key_type) :
    Bool × ManagedLayer :=
  (true, { layer with data_state := DataState.IN_USE_C, filter_key := key })

/-- The call `LockForUse( layer )`: `key` takes its default `filter_key_type( 0 )`. -/
def LayerManager.LockForUse_omitted (layer : ManagedLayer) : Bool × ManagedLayer :=
  LayerManager.LockForUse layer 0

/-- Modelled from the spec: the body of `LayerManager::LockForProcessing` is
missing; "Change the layer data_state to PROCESSING_C", with the key of the
locking process kept in the layer. -/
def LayerManager.LockForProcessing (layer : ManagedLayer) (key : filter_key_type) :
    Bool × ManagedLayer :=
  (true, { layer with data_state := DataState.PROCESSING_C, filter_key := key })

/-- The call `LockForProcessing( layer )`: `key` takes its default `filter_key_type( 0 )`. -/
def LayerManager.LockForProcessing_omitted (layer : ManagedLayer) : Bool × ManagedLayer :=
  LayerManager.LockForProcessing layer 0

/-- Modelled from the spec: the body of `LayerManager::CreateAndLockMaskLayer`
is missing; "Create a new mask layer and lock it into the CREATING_C mode".
The new layer has no volume yet; it is returned through `layer`. -/
def LayerManager.CreateAndLockMaskLayer (transform : Transform) (name : String)
    (meta_data : String) (key : filter_key_type) : Bool × ManagedLayer :=
  (true, { name := name, type := VolumeType.MASK_E, transform := transform,
           meta_data := meta_data, data_state := DataState.CREATING_C, filter_key := key,
           volume := none, provenance_id := none })

/-- The call `CreateAndLockMaskLayer( transform, name, layer, meta_data )`: `key` takes its
default `0`. -/
def LayerManager.CreateAndLockMaskLayer_omitted (transform : Transform) (name : String)
    (meta_data : String) : Bool × ManagedLayer :=
  LayerManager.CreateAndLockMaskLayer transform name meta_data 0

/-- Modelled from the spec: the body of `LayerManager::CreateAndLockDataLayer`
is missing; "Create a new data layer and lock it into the CREATING_C mode".
The new layer has no volume yet; it is returned through `layer`. -/
def LayerManager.CreateAndLockDataLayer (transform : Transform) (name : String)
    (meta_data : String) (key : filter_key_type) : Bool × ManagedLayer :=
  (true, { name := name, type := VolumeType.DATA_E, transform := transform,
           meta_data := meta_data, data_state := DataState.CREATING_C, filter_key := key,
           volume := none, provenance_id := none })

/-- The call `CreateAndLockDataLayer( transform, name, layer, meta_data )`: `key` takes its
default `filter_key_type( 0 )`. -/
def LayerManager.CreateAndLockDataLayer_omitted (transform : Transform) (name : String)
    (meta_data : String) : Bool × ManagedLayer :=
  LayerManager.CreateAndLockDataLayer transform name meta_data 0

/-- A call on a layer relayed to the application thread. -/
inductive ApplicationEvent where
  | UnlockLayer (key : filter_key_type)
  | InsertDataVolumeIntoLayer (data : Option DataVolume) (provid : ProvenanceID)
      (key : filter_key_type)
  | InsertMaskVolumeIntoLayer (mask : Option MaskVolume) (provid : ProvenanceID)
      (key : filter_key_type)
  | InsertVolumeIntoLayer (volume : VolumeHandle) (provid : ProvenanceID)
      (key : filter_key_type)
  deriving DecidableEq, Repr

/-- Modelled from the spec: the body of `LayerManager::DispatchUnlockLayer` is
missing; "Change the layer data_state back to available. This function will
relay a call to the Application thread if needed." -/
def LayerManager.DispatchUnlockLayer (IsApplicationThread : Bool) (layer : ManagedLayer)
    (key : filter_key_type) : ManagedLayer × List ApplicationEvent :=
  if !IsApplicationThread then
    (layer, [ApplicationEvent.UnlockLayer key])
  else
    ({ layer with data_state := DataState.AVAILABLE_C }, [])

/-- The call `DispatchUnlockLayer( layer )`: `key` takes its default `filter_key_type( 0 )`. -/
def LayerManager.DispatchUnlockLayer_omitted (IsApplicationThread : Bool)
    (layer : ManagedLayer) : ManagedLayer × List ApplicationEvent :=
  LayerManager.DispatchUnlockLayer IsApplicationThread layer 0

/-- Modelled from the spec: the body of `LayerManager::DispatchInsertVolumeIntoLayer`
is missing; "Insert a mask or data volume into a layer. This function will
relay a call to the Application thread if needed", where "a volume is only
inserted by the asynchronous process if the key matches the one generated when
the layer was locked". -/
def LayerManager.DispatchInsertVolumeIntoLayer (IsApplicationThread : Bool)
    (layer : ManagedLayer) (volume : VolumeHandle) (provid : ProvenanceID)
    (key : filter_key_type) : ManagedLayer × List ApplicationEvent :=
  if !IsApplicationThread then
    (layer, [ApplicationEvent.InsertVolumeIntoLayer volume provid key])
  else if key = layer.filter_key then
    ({ layer with volume := volume, provenance_id := some provid }, [])
  else
    (layer, [])

/-- Modelled from the spec: the body of `LayerManager::DispatchInsertDataVolumeIntoLayer`
is missing; "Insert a data volume into a data layer. This function will relay
a call to the Application thread if needed", under the same rule for the key. -/
def LayerManager.DispatchInsertDataVolumeIntoLayer (IsApplicationThread : Bool)
    (layer : ManagedLayer) (data : Option DataVolume) (provid : ProvenanceID)
    (key : filter_key_type) : ManagedLayer × List ApplicationEvent :=
  if !IsApplicationThread then
    (layer, [ApplicationEvent.InsertDataVolumeIntoLayer data provid key])
  else if key = layer.filter_key then
    ({ layer with volume := data.map Volume.data, provenance_id := some provid }, [])
  else
    (layer, [])

/-- Modelled from the spec: the body of `LayerManager::DispatchInsertMaskVolumeIntoLayer`
is missing; "Insert a mask volume into a mask layer. This function will relay
a call to the Application thread if needed", under the same rule for the key. -/
def LayerManager.DispatchInsertMaskVolumeIntoLayer (IsApplicationThread : Bool)
    (layer : ManagedLayer) (mask : Option MaskVolume) (provid : ProvenanceID)
    (key : filter_key_type) : ManagedLayer × List ApplicationEvent :=
  if !IsApplicationThread then
    (layer, [ApplicationEvent.InsertMaskVolumeIntoLayer mask provid key])
  else if key = layer.filter_key then
    ({ layer with volume := mask.map Volume.mask, provenance_id := some provid }, [])
  else
    (layer, [])

/-- The application thread makes a relayed call. -/
def ApplicationEvent.run (layer : ManagedLayer) : ApplicationEvent → ManagedLayer
  | ApplicationEvent.UnlockLayer key =>
    (LayerManager.DispatchUnlockLayer true layer key).1
  | ApplicationEvent.InsertDataVolumeIntoLayer data provid key =>
    (LayerManager.DispatchInsertDataVolumeIntoLayer true layer data provid key).1
  | ApplicationEvent.InsertMaskVolumeIntoLayer mask provid key =>
    (LayerManager.DispatchInsertMaskVolumeIntoLayer true layer mask provid key).1
  | ApplicationEvent.InsertVolumeIntoLayer volume provid key =>
    (LayerManager.DispatchInsertVolumeIntoLayer true layer volume provid key).1

/-- The layer once the application thread has made every call a dispatch
relayed to it. -/
def settle (dispatched : ManagedLayer × List ApplicationEvent) : ManagedLayer :=
  dispatched.2.foldl ApplicationEvent.run dispatched.1

/-- A data layer that is available, holding `sample_data_volume`. -/
def sample_managed_layer : ManagedLayer :=
  { name := "ct", type := VolumeType.DATA_E, transform := { tag := 3 }, meta_data := "",
    data_state := DataState.AVAILABLE_C, filter_key := 0,
    volume := some (Volume.data sample_data_volume), provenance_id := some 11 }

end Seg3D

/-! # Theorems -/

namespace Core

/-! ## AbstractViewer -/

/-- C1: `install_renderer` raises the logic error "Cannot install renderer
twice into viewer" exactly when the viewer already holds a non-null renderer;
when it raises, the viewer is left as it was (renderer, width, height and
both textures included), and when it does not raise, `get_renderer` afterwards
returns the renderer that was passed. -/
theorem install_renderer_raises_iff_installed (v : AbstractViewer)
    (renderer : AbstractRendererHandle) :
    ((v.install_renderer renderer).1 =
        Outcome.logic_error "Cannot install renderer twice into viewer"
      ↔ v.get_renderer ≠ none) ∧
    (∀ message, (v.install_renderer renderer).1 = Outcome.logic_error message →
      message = "Cannot install renderer twice into viewer" ∧
      (v.install_renderer renderer).2 = v ∧
      (v.install_renderer renderer).2.get_renderer = v.get_renderer ∧
      (v.install_renderer renderer).2.get_width = v.get_width ∧
      (v.install_renderer renderer).2.get_height = v.get_height ∧
      (v.install_renderer renderer).2.get_texture = v.get_texture ∧
      (v.install_renderer renderer).2.get_overlay_texture = v.get_overlay_texture) ∧
    ((∀ message, (v.install_renderer renderer).1 ≠ Outcome.logic_error message) →
      (v.install_renderer renderer).2.get_renderer = renderer) := by
  obtain ⟨sid, ver, keys, vis, ⟨r0, w, h, tex, otex⟩, conns, evs⟩ := v
  cases r0 with
  | some r0 =>
    refine ⟨by simp [AbstractViewer.install_renderer, AbstractViewer.get_renderer], ?_, ?_⟩
    · intro message hm
      simp only [AbstractViewer.install_renderer, Option.isSome_some, if_true] at hm
      injection hm with hm
      exact ⟨hm.symm, rfl, rfl, rfl, rfl, rfl, rfl⟩
    · intro hm
      exact absurd (by simp [AbstractViewer.install_renderer])
        (hm "Cannot install renderer twice into viewer")
  | none =>
    cases renderer with
    | none => simp [AbstractViewer.install_renderer, AbstractViewer.get_renderer]
    | some r =>
      simp [AbstractViewer.install_renderer, AbstractViewer.get_renderer,
        AbstractViewer.add_connection]

/-- C9: a newly constructed viewer is fully initialised, whatever the
allocation left in its members: width and height are 0, `viewer_visible` is
false, and the renderer, texture and overlay texture handles are null. -/
theorem new_viewer_is_initialised (viewer_id version_number : Nat) (w h : Int) :
    (AbstractViewer.new viewer_id version_number w h).get_width = 0 ∧
    (AbstractViewer.new viewer_id version_number w h).get_height = 0 ∧
    (AbstractViewer.new viewer_id version_number w h).viewer_visible_state_ =
      some { value := false } ∧
    (AbstractViewer.new viewer_id version_number w h).get_renderer = none ∧
    (AbstractViewer.new viewer_id version_number w h).get_texture = none ∧
    (AbstractViewer.new viewer_id version_number w h).get_overlay_texture = none := by
  refine ⟨rfl, rfl, rfl, rfl, rfl, rfl⟩

end Core

namespace Seg3D

open Core

/-! ## ReconstructionFilter -/

/-- C2: `get_itk_image_from_layer` clears the image handle first, so what
the handle held before the call has no influence, and afterwards the handle is
non-null exactly when the function returned true; every false return leaves
the handle null. -/
theorem get_itk_image_from_layer_handle_iff_true (ext : DataBlockServices) (T : DataType)
    (layer : Layer) (image : ITKImageDataHandle) (invert : Bool) :
    (∀ image0 : ITKImageDataHandle,
      get_itk_image_from_layer ext T layer image0 invert =
        get_itk_image_from_layer ext T layer image invert) ∧
    ((get_itk_image_from_layer ext T layer image invert).image ≠ none ↔
      (get_itk_image_from_layer ext T layer image invert).returned = true) ∧
    ((get_itk_image_from_layer ext T layer image invert).returned = false →
      (get_itk_image_from_layer ext T layer image invert).image = none) := by
  refine ⟨fun _ => rfl, ?_, ?_⟩
  · cases layer with
    | DataLayer volume =>
      by_cases hT : volume.data_type = T
      · simp [get_itk_image_from_layer, wrap_itk_image, ITKImageDataT.new, hT]
      · cases hc : (ext.ConvertDataType volume.data_block T).1 <;>
          simp [get_itk_image_from_layer, wrap_itk_image, ITKImageDataT.new,
            ITKImageDataHandle.reset, hT, hc]
    | MaskLayer volume =>
      cases hc : (ext.Convert volume.mask_data_block T invert).1 <;>
        simp [get_itk_image_from_layer, wrap_itk_image, ITKImageDataT.new,
          ITKImageDataHandle.reset, hc]
    | OtherLayer code =>
      simp [get_itk_image_from_layer, ITKImageDataHandle.reset]
  · cases layer with
    | DataLayer volume =>
      by_cases hT : volume.data_type = T
      · simp [get_itk_image_from_layer, wrap_itk_image, ITKImageDataT.new, hT]
      · cases hc : (ext.ConvertDataType volume.data_block T).1 <;>
          simp [get_itk_image_from_layer, wrap_itk_image, ITKImageDataT.new,
            ITKImageDataHandle.reset, hT, hc]
    | MaskLayer volume =>
      cases hc : (ext.Convert volume.mask_data_block T invert).1 <;>
        simp [get_itk_image_from_layer, wrap_itk_image, ITKImageDataT.new,
          ITKImageDataHandle.reset, hc]
    | OtherLayer code =>
      simp [get_itk_image_from_layer, ITKImageDataHandle.reset]

/-- C3: for a data layer whose volume already has the requested type the
data is not converted: the call returns true, makes no conversion call and
reports nothing, and the image wraps the volume's own data block together with
the volume's transform. -/
theorem data_layer_same_type_shares_block (ext : DataBlockServices) (T : DataType)
    (volume : DataVolume) (image : ITKImageDataHandle) (invert : Bool)
    (h : volume.data_type = T) :
    get_itk_image_from_layer ext T (Layer.DataLayer volume) image invert =
      { returned := true,
        image := some { value_type := T, data_block := volume.data_block,
                        transform := volume.transform },
        effects := [] } := by
  simp [get_itk_image_from_layer, wrap_itk_image, ITKImageDataT.new, h]

/-- Witness of C3: a `float` volume asked for as `float`. -/
theorem data_layer_same_type_shares_block_witness :
    sample_data_volume.data_type = DataType.FLOAT_E ∧
    get_itk_image_from_layer services_failing DataType.FLOAT_E
        (Layer.DataLayer sample_data_volume) none true =
      { returned := true,
        image := some { value_type := DataType.FLOAT_E,
                        data_block := sample_data_volume.data_block,
                        transform := sample_data_volume.transform },
        effects := [] } :=
  ⟨rfl, data_layer_same_type_shares_block services_failing DataType.FLOAT_E
    sample_data_volume none true rfl⟩

/-- C4: for a mask layer the data is always converted: whatever `T` is, the
one conversion call made is `MaskDataBlockManager::Convert` on the mask's data
block with target type `T` and the caller's invert flag (false when the
argument is omitted); an image that is produced holds the block that `Convert`
put out, not a block of the mask, and carries the mask volume's transform. -/
theorem mask_layer_always_converts (ext : DataBlockServices) (T : DataType)
    (volume : MaskVolume) (image : ITKImageDataHandle) (invert : Bool) :
    (get_itk_image_from_layer ext T (Layer.MaskLayer volume) image invert).conversions =
      [FilterEffect.Convert volume.mask_data_block T invert] ∧
    (get_itk_image_from_layer_omitted ext T (Layer.MaskLayer volume) image).conversions =
      [FilterEffect.Convert volume.mask_data_block T false] ∧
    (∀ img, (get_itk_image_from_layer ext T (Layer.MaskLayer volume) image invert).image =
        some img →
      (ext.Convert volume.mask_data_block T invert).1 = true ∧
      img.data_block = (ext.Convert volume.mask_data_block T invert).2 ∧
      img.transform = volume.transform ∧ img.value_type = T) ∧
    ((ext.Convert volume.mask_data_block T invert).1 = true →
      (get_itk_image_from_layer ext T (Layer.MaskLayer volume) image invert).image =
        some { value_type := T,
               data_block := (ext.Convert volume.mask_data_block T invert).2,
               transform := volume.transform }) := by
  refine ⟨?_, ?_, ?_, ?_⟩
  · cases hc : (ext.Convert volume.mask_data_block T invert).1 <;>
      simp [get_itk_image_from_layer, wrap_itk_image, ITKImageDataT.new,
        FilterResult.conversions, hc]
  · cases hc : (ext.Convert volume.mask_data_block T false).1 <;>
      simp [get_itk_image_from_layer_omitted, get_itk_image_from_layer, wrap_itk_image,
        ITKImageDataT.new, FilterResult.conversions, hc]
  · intro img
    cases hc : (ext.Convert volume.mask_data_block T invert).1
    · simp [get_itk_image_from_layer, ITKImageDataHandle.reset, hc]
    · simp only [get_itk_image_from_layer, wrap_itk_image, ITKImageDataT.new, hc]
      intro himg
      simp at himg
      subst himg
      simp
  · intro hc
    simp [get_itk_image_from_layer, wrap_itk_image, ITKImageDataT.new, hc]

/-- C5: when the conversion a layer needs fails (`ConvertDataType` for a
data layer of another type, `Convert` for a mask layer) the call reports
"Could not allocate enough memory." exactly once, returns false and leaves the
handle null; and for a data or mask layer it returns true exactly when no
conversion was needed or the conversion succeeded. -/
theorem conversion_failure_reported_once (ext : DataBlockServices) (T : DataType)
    (image : ITKImageDataHandle) (invert : Bool) :
    (∀ volume : DataVolume, volume.data_type ≠ T →
      (ext.ConvertDataType volume.data_block T).1 = false →
      (get_itk_image_from_layer ext T (Layer.DataLayer volume) image invert).errors =
          ["Could not allocate enough memory."] ∧
      (get_itk_image_from_layer ext T (Layer.DataLayer volume) image invert).returned = false ∧
      (get_itk_image_from_layer ext T (Layer.DataLayer volume) image invert).image = none) ∧
    (∀ volume : MaskVolume, (ext.Convert volume.mask_data_block T invert).1 = false →
      (get_itk_image_from_layer ext T (Layer.MaskLayer volume) image invert).errors =
          ["Could not allocate enough memory."] ∧
      (get_itk_image_from_layer ext T (Layer.MaskLayer volume) image invert).returned = false ∧
      (get_itk_image_from_layer ext T (Layer.MaskLayer volume) image invert).image = none) ∧
    (∀ volume : DataVolume,
      (get_itk_image_from_layer ext T (Layer.DataLayer volume) image invert).returned = true ↔
        (volume.data_type = T ∨ (ext.ConvertDataType volume.data_block T).1 = true)) ∧
    (∀ volume : MaskVolume,
      (get_itk_image_from_layer ext T (Layer.MaskLayer volume) image invert).returned = true ↔
        (ext.Convert volume.mask_data_block T invert).1 = true) := by
  refine ⟨?_, ?_, ?_, ?_⟩
  · intro volume hT hc
    simp [get_itk_image_from_layer, ITKImageDataHandle.reset, FilterResult.errors, hT, hc]
  · intro volume hc
    simp [get_itk_image_from_layer, ITKImageDataHandle.reset, FilterResult.errors, hc]
  · intro volume
    by_cases hT : volume.data_type = T
    · simp [get_itk_image_from_layer, wrap_itk_image, ITKImageDataT.new, hT]
    · cases hc : (ext.ConvertDataType volume.data_block T).1 <;>
        simp [get_itk_image_from_layer, wrap_itk_image, ITKImageDataT.new, hT, hc]
  · intro volume
    cases hc : (ext.Convert volume.mask_data_block T invert).1 <;>
      simp [get_itk_image_from_layer, wrap_itk_image, ITKImageDataT.new, hc]

/-- C6: for a layer that is neither a data layer nor a mask layer the call
returns false with a null handle, converts nothing and reports no error. -/
theorem unknown_layer_type_rejected (ext : DataBlockServices) (T : DataType) (layer : Layer)
    (image : ITKImageDataHandle) (invert : Bool)
    (hd : layer.get_type ≠ VolumeType.DATA_E) (hm : layer.get_type ≠ VolumeType.MASK_E) :
    get_itk_image_from_layer ext T layer image invert =
        { returned := false, image := none, effects := [] } ∧
    (get_itk_image_from_layer ext T layer image invert).conversions = [] ∧
    (get_itk_image_from_layer ext T layer image invert).errors = [] := by
  cases layer with
  | DataLayer volume => exact absurd rfl hd
  | MaskLayer volume => exact absurd rfl hm
  | OtherLayer code =>
    simp [get_itk_image_from_layer, ITKImageDataHandle.reset, FilterResult.conversions,
      FilterResult.errors]

/-- Witness of C6: a layer of kind `other 8`, with a handle that held an
image before the call. -/
theorem unknown_layer_type_rejected_witness :
    (Layer.OtherLayer 8).get_type ≠ VolumeType.DATA_E ∧
    (Layer.OtherLayer 8).get_type ≠ VolumeType.MASK_E ∧
    get_itk_image_from_layer services_succeeding DataType.UCHAR_E (Layer.OtherLayer 8)
        (some { value_type := DataType.UCHAR_E, data_block := none, transform := { tag := 1 } })
        false =
      { returned := false, image := none, effects := [] } :=
  ⟨by decide, by decide,
    (unknown_layer_type_rejected services_succeeding DataType.UCHAR_E (Layer.OtherLayer 8)
      (some { value_type := DataType.UCHAR_E, data_block := none, transform := { tag := 1 } })
      false (by decide) (by decide)).1⟩

/-- C7, as stated, fails: with conversion routines that always succeed, the
call on a data layer returns false, leaves the handle null and attempts no
conversion. -/
theorem mask_layer_retrieval_on_data_layer_fails :
    ¬ ((get_itk_image_from_mask_layer services_succeeding DataType.FLOAT_E
          (Layer.DataLayer sample_data_volume) none 1).returned = true ∧
        (get_itk_image_from_mask_layer services_succeeding DataType.FLOAT_E
          (Layer.DataLayer sample_data_volume) none 1).image ≠ none) ∧
    get_itk_image_from_mask_layer services_succeeding DataType.FLOAT_E
        (Layer.DataLayer sample_data_volume) none 1 =
      { returned := false, image := none, effects := [] } := by
  constructor
  · simp [get_itk_image_from_mask_layer, ITKImageDataHandle.reset]
  · simp [get_itk_image_from_mask_layer, ITKImageDataHandle.reset]

/-- C7, amended: `get_itk_image_from_mask_layer` retrieves an itk image from
a mask layer only. For a mask layer it returns true and sets a non-null handle
whenever `ConvertLabel` succeeds; for a data layer it returns false with a
null handle and attempts no conversion. -/
theorem mask_layer_retrieval_by_layer_kind (ext : DataBlockServices) (T : DataType)
    (image : ITKImageDataHandle) (label : ℚ) :
    (∀ volume : MaskVolume, (ext.ConvertLabel volume.mask_data_block T label).1 = true →
      (get_itk_image_from_mask_layer ext T (Layer.MaskLayer volume) image label).returned = true ∧
      (get_itk_image_from_mask_layer ext T (Layer.MaskLayer volume) image label).image ≠ none) ∧
    (∀ volume : DataVolume,
      get_itk_image_from_mask_layer ext T (Layer.DataLayer volume) image label =
        { returned := false, image := none, effects := [] }) := by
  constructor
  · intro volume hc
    simp [get_itk_image_from_mask_layer, wrap_itk_image, ITKImageDataT.new, hc]
  · intro volume
    simp [get_itk_image_from_mask_layer, ITKImageDataHandle.reset]

/-- C8: `get_itk_image_from_mask_layer` returns true exactly when the layer
is a mask layer and `ConvertLabel` succeeds. On a mask layer the one
conversion call is `ConvertLabel` with the caller's label (1.0 when omitted);
when it succeeds the handle holds an image of type `T` on the block that
`ConvertLabel` put out, carrying the mask volume's transform, and nothing is
reported; a failed conversion reports "Could not allocate enough memory.";
and every false return leaves the handle null. -/
theorem mask_layer_retrieval_contract (ext : DataBlockServices) (T : DataType)
    (layer : Layer) (image : ITKImageDataHandle) (label : ℚ) :
    ((get_itk_image_from_mask_layer ext T layer image label).returned = true ↔
      (layer.get_type = VolumeType.MASK_E ∧
        ∃ volume, layer = Layer.MaskLayer volume ∧
          (ext.ConvertLabel volume.mask_data_block T label).1 = true)) ∧
    (∀ volume, layer = Layer.MaskLayer volume →
      (get_itk_image_from_mask_layer ext T layer image label).conversions =
          [FilterEffect.ConvertLabel volume.mask_data_block T label] ∧
      (get_itk_image_from_mask_layer_omitted ext T layer image).conversions =
          [FilterEffect.ConvertLabel volume.mask_data_block T 1.0] ∧
      (∀ img, (get_itk_image_from_mask_layer ext T layer image label).image = some img →
        img.transform = volume.transform ∧
        img.data_block = (ext.ConvertLabel volume.mask_data_block T label).2) ∧
      ((ext.ConvertLabel volume.mask_data_block T label).1 = true →
        (get_itk_image_from_mask_layer ext T layer image label).image =
          some { value_type := T,
                 data_block := (ext.ConvertLabel volume.mask_data_block T label).2,
                 transform := volume.transform } ∧
        (get_itk_image_from_mask_layer ext T layer image label).errors = []) ∧
      ((ext.ConvertLabel volume.mask_data_block T label).1 = false →
        (get_itk_image_from_mask_layer ext T layer image label).errors =
          ["Could not allocate enough memory."])) ∧
    ((get_itk_image_from_mask_layer ext T layer image label).returned = false →
      (get_itk_image_from_mask_layer ext T layer image label).image = none) := by
  cases layer with
  | DataLayer volume =>
    simp [get_itk_image_from_mask_layer, ITKImageDataHandle.reset, Layer.get_type]
  | OtherLayer code =>
    simp [get_itk_image_from_mask_layer, ITKImageDataHandle.reset, Layer.get_type]
  | MaskLayer volume =>
    refine ⟨?_, ?_, ?_⟩
    · cases hc : (ext.ConvertLabel volume.mask_data_block T label).1 <;>
        simp [get_itk_image_from_mask_layer, wrap_itk_image, ITKImageDataT.new,
          Layer.get_type, hc]
    · intro volume0 hv
      injection hv with hv
      subst hv
      refine ⟨?_, ?_, ?_, ?_, ?_⟩
      · cases hc : (ext.ConvertLabel volume.mask_data_block T label).1 <;>
          simp [get_itk_image_from_mask_layer, wrap_itk_image, ITKImageDataT.new,
            FilterResult.conversions, hc]
      · cases hc : (ext.ConvertLabel volume.mask_data_block T 1.0).1 <;>
          simp [get_itk_image_from_mask_layer_omitted, get_itk_image_from_mask_layer,
            wrap_itk_image, ITKImageDataT.new, FilterResult.conversions, hc]
      · intro img
        cases hc : (ext.ConvertLabel volume.mask_data_block T label).1
        · simp [get_itk_image_from_mask_layer, ITKImageDataHandle.reset, hc]
        · simp only [get_itk_image_from_mask_layer, wrap_itk_image, ITKImageDataT.new, hc]
          intro himg
          simp at himg
          subst himg
          simp
      · intro hc
        simp [get_itk_image_from_mask_layer, wrap_itk_image, ITKImageDataT.new,
          FilterResult.errors, hc]
      · intro hc
        simp [get_itk_image_from_mask_layer, FilterResult.errors, hc]
    · cases hc : (ext.ConvertLabel volume.mask_data_block T label).1 <;>
        simp [get_itk_image_from_mask_layer, wrap_itk_image, ITKImageDataT.new,
          ITKImageDataHandle.reset, hc]

/-! ## ReconstructionTool -/

/-- C10: a newly constructed `ReconstructionTool` has iterations 3 with
range minimum 1, maximum 100 and step 1, so that the default lies in the
range; `input_data_id` is "<none>", `outputDirectory` is the empty string,
the initial guess set is empty, and both voxel size scales are 0.5 with range
[0.01, 10.0] and step 0.01, the default again inside the range. -/
theorem new_tool_state_defaults (toolid : String) :
    (∃ s, (ReconstructionTool.new toolid).iterations_state_ = some s ∧
      s.value = 3 ∧ s.min_value = 1 ∧ s.max_value = 100 ∧ s.step = 1 ∧
      s.min_value ≤ s.value ∧ s.value ≤ s.max_value) ∧
    (ReconstructionTool.new toolid).input_data_id_ = some { value := "<none>" } ∧
    (ReconstructionTool.new toolid).outputDirectory_state_ = some { value := "" } ∧
    (ReconstructionTool.new toolid).initialGuessSet_state_ = some { value := [] } ∧
    (∃ s, (ReconstructionTool.new toolid).xyVoxelSizeScale_state_ = some s ∧
      (ReconstructionTool.new toolid).zVoxelSizeScale_state_ = some s ∧
      s.value = 0.5 ∧ s.min_value = 0.01 ∧ s.max_value = 10.0 ∧ s.step = 0.01 ∧
      s.min_value ≤ s.value ∧ s.value ≤ s.max_value) := by
  refine ⟨⟨_, rfl, rfl, rfl, rfl, rfl, by decide, by decide⟩, rfl, rfl, rfl,
    ⟨_, rfl, rfl, rfl, rfl, rfl, rfl, ?_, ?_⟩⟩
  · show (0.01 : ℚ) ≤ 0.5
    norm_num
  · show (0.5 : ℚ) ≤ 10.0
    norm_num

end Seg3D

namespace Seg3D

open Core

/-! ## ReconstructionToolInterface -/

/-- C11: `UpdateProgress` hands the update to the right thread. Off the
interface thread it posts exactly one event, the same call with the same
pointer and progress value, and leaves every widget alone. On the interface
thread it gives the value to the progress bar of the widget pointed at when
the guarded pointer is non-null and the application is not closing down, and
does nothing otherwise. It never dereferences a null pointer. -/
theorem UpdateProgress_hands_off_to_interface_thread (world : InterfaceWorld)
    (qpointer : qpointer_type) (progress : ℚ) :
    (world.IsInterfaceThread = false →
      ReconstructionToolInterface.UpdateProgress world qpointer progress =
        (Outcome.returned,
          { world with posted_events :=
              world.posted_events ++ [InterfaceEvent.UpdateProgress qpointer progress] })) ∧
    (∀ w : InterfaceWorld, InterfaceEvent.run w (InterfaceEvent.UpdateProgress qpointer progress) =
      ReconstructionToolInterface.UpdateProgress w qpointer progress) ∧
    (world.IsInterfaceThread = true →
      (∀ address widget, qpointer = some address → world.widgets address = some widget →
        world.closingDown = false →
        (ReconstructionToolInterface.UpdateProgress world qpointer progress).2.widgets address =
            some { progress_bar_ := widget.progress_bar_ ++ [progress] } ∧
        (∀ a, a ≠ address →
          (ReconstructionToolInterface.UpdateProgress world qpointer progress).2.widgets a =
            world.widgets a) ∧
        (ReconstructionToolInterface.UpdateProgress world qpointer progress).2.posted_events =
            world.posted_events) ∧
      ((world.data qpointer = none ∨ world.closingDown = true) →
        (ReconstructionToolInterface.UpdateProgress world qpointer progress).2 = world)) ∧
    (ReconstructionToolInterface.UpdateProgress world qpointer progress).1 =
      Outcome.returned := by
  refine ⟨?_, fun _ => rfl, ?_, ?_⟩
  · intro hthread
    simp [ReconstructionToolInterface.UpdateProgress, hthread]
  · intro hthread
    constructor
    · intro address widget hq hw hclose
      subst hq
      simp [ReconstructionToolInterface.UpdateProgress, InterfaceWorld.data, hthread, hw,
        hclose, ReconstructionToolInterface.update_progress_bar]
      intro a ha hne
      exact absurd hne ha
    · intro hguard
      rcases hguard with hnull | hclose
      · simp [ReconstructionToolInterface.UpdateProgress, hthread, hnull]
      · simp [ReconstructionToolInterface.UpdateProgress, hthread, hclose]
  · cases hthread : world.IsInterfaceThread
    · simp [ReconstructionToolInterface.UpdateProgress, hthread]
    · cases hclose : world.closingDown
      · cases qpointer with
        | none =>
          simp [ReconstructionToolInterface.UpdateProgress, InterfaceWorld.data, hthread]
        | some address =>
          cases hw : world.widgets address <;>
            simp [ReconstructionToolInterface.UpdateProgress, InterfaceWorld.data, hthread,
              hclose, hw]
      · simp [ReconstructionToolInterface.UpdateProgress, hthread, hclose]

/-! ## LayerManager -/

/-- C12: `CheckLayerAvailability` processes both access cases: with
`replace` true its result is that of `CheckLayerAvailabilityForProcessing`
(write access), with `replace` false that of `CheckLayerAvailabilityForUse`
(read access), for every layer id and context. -/
theorem CheckLayerAvailability_processes_both_cases (checks : AvailabilityChecks)
    (layer_id : String) (context : ActionContext) :
    LayerManager.CheckLayerAvailability checks layer_id true context =
      checks.CheckLayerAvailabilityForProcessing layer_id context ∧
    LayerManager.CheckLayerAvailability checks layer_id false context =
      checks.CheckLayerAvailabilityForUse layer_id context := by
  constructor <;> simp [LayerManager.CheckLayerAvailability]

/-- A dispatch made off the application thread settles to what the same
dispatch made on the application thread gives. -/
theorem settle_DispatchInsertVolumeIntoLayer (on_thread : Bool) (layer : ManagedLayer)
    (volume : VolumeHandle) (provid : ProvenanceID) (key : filter_key_type) :
    settle (LayerManager.DispatchInsertVolumeIntoLayer on_thread layer volume provid key) =
      if key = layer.filter_key then
        { layer with volume := volume, provenance_id := some provid }
      else layer := by
  cases on_thread <;> by_cases hk : key = layer.filter_key <;>
    simp [settle, LayerManager.DispatchInsertVolumeIntoLayer, ApplicationEvent.run, hk]

/-- The same for the insertion of a data volume. -/
theorem settle_DispatchInsertDataVolumeIntoLayer (on_thread : Bool) (layer : ManagedLayer)
    (data : Option DataVolume) (provid : ProvenanceID) (key : filter_key_type) :
    settle (LayerManager.DispatchInsertDataVolumeIntoLayer on_thread layer data provid key) =
      if key = layer.filter_key then
        { layer with volume := data.map Volume.data, provenance_id := some provid }
      else layer := by
  cases on_thread <;> by_cases hk : key = layer.filter_key <;>
    simp [settle, LayerManager.DispatchInsertDataVolumeIntoLayer, ApplicationEvent.run, hk]

/-- The same for the insertion of a mask volume. -/
theorem settle_DispatchInsertMaskVolumeIntoLayer (on_thread : Bool) (layer : ManagedLayer)
    (mask : Option MaskVolume) (provid : ProvenanceID) (key : filter_key_type) :
    settle (LayerManager.DispatchInsertMaskVolumeIntoLayer on_thread layer mask provid key) =
      if key = layer.filter_key then
        { layer with volume := mask.map Volume.mask, provenance_id := some provid }
      else layer := by
  cases on_thread <;> by_cases hk : key = layer.filter_key <;>
    simp [settle, LayerManager.DispatchInsertMaskVolumeIntoLayer, ApplicationEvent.run, hk]

/-- Each locking function leaves the key it was given in the layer. -/
theorem locked_layer_keeps_key (layer0 : ManagedLayer) (transform : Transform)
    (name meta_data : String) (k : filter_key_type) (locked : ManagedLayer)
    (hlock : locked = (LayerManager.LockForUse layer0 k).2 ∨
      locked = (LayerManager.LockForProcessing layer0 k).2 ∨
      locked = (LayerManager.CreateAndLockMaskLayer transform name meta_data k).2 ∨
      locked = (LayerManager.CreateAndLockDataLayer transform name meta_data k).2) :
    locked.filter_key = k := by
  rcases hlock with h | h | h | h <;> subst h <;> rfl

/-- C13: a volume is inserted only with the key the layer was locked with.
For a layer locked with key `k` by any of the locking functions, and for each
of the three volume insertions, made on the application thread or relayed to
it: a call carrying a key other than `k` leaves the layer's volume as it was,
and a call carrying `k` replaces it by the volume passed. -/
theorem volume_inserted_only_with_matching_key (layer0 : ManagedLayer) (transform : Transform)
    (name meta_data : String) (k key : filter_key_type) (locked : ManagedLayer)
    (on_thread : Bool) (volume : VolumeHandle) (data : Option DataVolume)
    (mask : Option MaskVolume) (provid : ProvenanceID)
    (hlock : locked = (LayerManager.LockForUse layer0 k).2 ∨
      locked = (LayerManager.LockForProcessing layer0 k).2 ∨
      locked = (LayerManager.CreateAndLockMaskLayer transform name meta_data k).2 ∨
      locked = (LayerManager.CreateAndLockDataLayer transform name meta_data k).2) :
    (key ≠ k →
      (settle (LayerManager.DispatchInsertVolumeIntoLayer on_thread locked volume provid
        key)).volume = locked.volume ∧
      (settle (LayerManager.DispatchInsertDataVolumeIntoLayer on_thread locked data provid
        key)).volume = locked.volume ∧
      (settle (LayerManager.DispatchInsertMaskVolumeIntoLayer on_thread locked mask provid
        key)).volume = locked.volume) ∧
    (settle (LayerManager.DispatchInsertVolumeIntoLayer on_thread locked volume provid
      k)).volume = volume ∧
    (settle (LayerManager.DispatchInsertDataVolumeIntoLayer on_thread locked data provid
      k)).volume = data.map Volume.data ∧
    (settle (LayerManager.DispatchInsertMaskVolumeIntoLayer on_thread locked mask provid
      k)).volume = mask.map Volume.mask := by
  have hk : locked.filter_key = k :=
    locked_layer_keeps_key layer0 transform name meta_data k locked hlock
  rw [settle_DispatchInsertVolumeIntoLayer, settle_DispatchInsertDataVolumeIntoLayer,
    settle_DispatchInsertMaskVolumeIntoLayer, settle_DispatchInsertVolumeIntoLayer,
    settle_DispatchInsertDataVolumeIntoLayer, settle_DispatchInsertMaskVolumeIntoLayer]
  refine ⟨?_, ?_, ?_, ?_⟩
  · intro hne
    have hne2 : ¬ key = locked.filter_key := by rw [hk]; exact hne
    simp [hne2]
  · simp [hk]
  · simp [hk]
  · simp [hk]

/-- Witness of C13: the sample layer locked for processing with key 42; a
relayed insertion carrying key 7 leaves its volume, one carrying 42 replaces
it. -/
theorem volume_inserted_only_with_matching_key_witness :
    (settle (LayerManager.DispatchInsertVolumeIntoLayer false
      (LayerManager.LockForProcessing sample_managed_layer 42).2
      (some (Volume.mask sample_mask_volume)) 5 7)).volume =
        some (Volume.data sample_data_volume) ∧
    (settle (LayerManager.DispatchInsertVolumeIntoLayer false
      (LayerManager.LockForProcessing sample_managed_layer 42).2
      (some (Volume.mask sample_mask_volume)) 5 42)).volume =
        some (Volume.mask sample_mask_volume) :=
  have h := volume_inserted_only_with_matching_key sample_managed_layer { tag := 0 } "" "" 42 7
    (LayerManager.LockForProcessing sample_managed_layer 42).2 false
    (some (Volume.mask sample_mask_volume)) none none 5 (Or.inr (Or.inl rfl))
  ⟨(h.1 (by decide)).1, h.2.1⟩

/-- C14: the locking operations drive `data_state` as documented.
`LockForUse` leaves IN_USE_C, `LockForProcessing` leaves PROCESSING_C, the
two `CreateAndLock` functions give a new layer of their kind in CREATING_C,
and `DispatchUnlockLayer`, on the application thread or relayed to it, leaves
the layer available; in each of them an omitted key is 0. -/
theorem locking_drives_data_state (layer : ManagedLayer) (key : filter_key_type)
    (transform : Transform) (name meta_data : String) (on_thread : Bool) :
    ((LayerManager.LockForUse layer key).2.data_state = DataState.IN_USE_C ∧
      (LayerManager.LockForProcessing layer key).2.data_state = DataState.PROCESSING_C ∧
      (LayerManager.CreateAndLockMaskLayer transform name meta_data key).2.data_state =
        DataState.CREATING_C ∧
      (LayerManager.CreateAndLockMaskLayer transform name meta_data key).2.type =
        VolumeType.MASK_E ∧
      (LayerManager.CreateAndLockDataLayer transform name meta_data key).2.data_state =
        DataState.CREATING_C ∧
      (LayerManager.CreateAndLockDataLayer transform name meta_data key).2.type =
        VolumeType.DATA_E ∧
      (settle (LayerManager.DispatchUnlockLayer on_thread layer key)).data_state =
        DataState.AVAILABLE_C) ∧
    (LayerManager.LockForUse_omitted layer = LayerManager.LockForUse layer 0 ∧
      LayerManager.LockForProcessing_omitted layer = LayerManager.LockForProcessing layer 0 ∧
      LayerManager.CreateAndLockMaskLayer_omitted transform name meta_data =
        LayerManager.CreateAndLockMaskLayer transform name meta_data 0 ∧
      LayerManager.CreateAndLockDataLayer_omitted transform name meta_data =
        LayerManager.CreateAndLockDataLayer transform name meta_data 0 ∧
      LayerManager.DispatchUnlockLayer_omitted on_thread layer =
        LayerManager.DispatchUnlockLayer on_thread layer 0) := by
  refine ⟨⟨rfl, rfl, rfl, rfl, rfl, rfl, ?_⟩, rfl, rfl, rfl, rfl, rfl⟩
  cases on_thread <;>
    simp [settle, LayerManager.DispatchUnlockLayer, ApplicationEvent.run]

end Seg3D

namespace Core

/-! ## AbstractViewer textures -/

/-- C15: the viewer keeps the last texture and the last overlay texture
independently. After `set_texture( t, d )`, `get_texture` returns `t` while
the overlay texture, width, height and renderer are as before; after
`set_overlay_texture( t, d )`, `get_overlay_texture` returns `t` while the
texture and the other fields are as before. -/
theorem textures_kept_independently (v : AbstractViewer) (t : Texture2DHandle)
    (d : Bool) :
    ((v.set_texture t d).get_texture = t ∧
      (v.set_texture t d).get_overlay_texture = v.get_overlay_texture ∧
      (v.set_texture t d).get_width = v.get_width ∧
      (v.set_texture t d).get_height = v.get_height ∧
      (v.set_texture t d).get_renderer = v.get_renderer) ∧
    ((v.set_overlay_texture t d).get_overlay_texture = t ∧
      (v.set_overlay_texture t d).get_texture = v.get_texture ∧
      (v.set_overlay_texture t d).get_width = v.get_width ∧
      (v.set_overlay_texture t d).get_height = v.get_height ∧
      (v.set_overlay_texture t d).get_renderer = v.get_renderer) := by
  cases d <;>
    simp [AbstractViewer.set_texture, AbstractViewer.set_overlay_texture,
      AbstractViewer.get_texture, AbstractViewer.get_overlay_texture,
      AbstractViewer.get_width, AbstractViewer.get_height, AbstractViewer.get_renderer]

/-- C16: `set_texture` and `set_overlay_texture` emit
`update_display_signal_` exactly once when `delay_update` is false and not at
all when it is true; the texture is stored in both cases, and the store comes
before the signal. -/
theorem update_display_signal_unless_delayed (v : AbstractViewer) (t : Texture2DHandle) :
    ((v.set_texture t false).events_ =
        v.events_ ++ [ViewerEvent.texture_stored t, ViewerEvent.update_display_signal_] ∧
      (v.set_texture t true).events_ = v.events_ ++ [ViewerEvent.texture_stored t] ∧
      (v.set_texture t false).get_texture = t ∧
      (v.set_texture t true).get_texture = t) ∧
    ((v.set_overlay_texture t false).events_ =
        v.events_ ++
          [ViewerEvent.overlay_texture_stored t, ViewerEvent.update_display_signal_] ∧
      (v.set_overlay_texture t true).events_ =
        v.events_ ++ [ViewerEvent.overlay_texture_stored t] ∧
      (v.set_overlay_texture t false).get_overlay_texture = t ∧
      (v.set_overlay_texture t true).get_overlay_texture = t) := by
  simp [AbstractViewer.set_texture, AbstractViewer.set_overlay_texture,
    AbstractViewer.get_texture, AbstractViewer.get_overlay_texture]

end Core

namespace Core

/-! ## Rounding to binary64 -/

/-- Rounding to an integer does not go below the floor. -/
theorem round_half_even_floor_le (x : ℚ) : ⌊x⌋ ≤ round_half_even x := by
  unfold round_half_even
  split_ifs <;> omega

/-- Rounding to an integer does not go above the floor plus one. -/
theorem round_half_even_le_floor_succ (x : ℚ) : round_half_even x ≤ ⌊x⌋ + 1 := by
  unfold round_half_even
  split_ifs <;> omega

/-- An integer is rounded to itself. -/
theorem round_half_even_intCast (n : ℤ) : round_half_even (n : ℚ) = n := by
  unfold round_half_even
  simp

/-- Rounding to an integer keeps the order. -/
theorem round_half_even_mono {x y : ℚ} (h : x ≤ y) : round_half_even x ≤ round_half_even y := by
  have hf : ⌊x⌋ ≤ ⌊y⌋ := Int.floor_mono h
  rcases lt_or_eq_of_le hf with hlt | heq
  · calc round_half_even x ≤ ⌊x⌋ + 1 := round_half_even_le_floor_succ x
      _ ≤ ⌊y⌋ := hlt
      _ ≤ round_half_even y := round_half_even_floor_le y
  · unfold round_half_even
    rw [heq]
    have hxy : x - (⌊y⌋ : ℚ) ≤ y - (⌊y⌋ : ℚ) := by linarith
    split_ifs <;> first | omega | linarith

/-- A value below an integer is not rounded above it. -/
theorem round_half_even_le_of_le_intCast {x : ℚ} {n : ℤ} (h : x ≤ n) : round_half_even x ≤ n := by
  have := round_half_even_mono h
  rwa [round_half_even_intCast] at this

/-- A value above an integer is not rounded below it. -/
theorem intCast_le_round_half_even {x : ℚ} {n : ℤ} (h : (n : ℚ) ≤ x) : n ≤ round_half_even x := by
  have := round_half_even_mono h
  rwa [round_half_even_intCast] at this

/-- The spacing is positive. -/
theorem ulp_pos (m : ℚ) : 0 < ulp m := by
  unfold ulp
  positivity

/-- A magnitude is rounded to a magnitude. -/
theorem round_magnitude_nonneg {m : ℚ} (h : 0 ≤ m) : 0 ≤ round_magnitude m := by
  unfold round_magnitude
  have hq : ((0 : ℤ) : ℚ) ≤ m / ulp m := by
    have := ulp_pos m
    simp only [Int.cast_zero]
    positivity
  have := intCast_le_round_half_even hq
  have h2 : (0 : ℚ) ≤ (round_half_even (m / ulp m) : ℚ) := by exact_mod_cast this
  exact mul_nonneg h2 (ulp_pos m).le

/-- Zero is rounded to zero. -/
theorem round_magnitude_zero : round_magnitude 0 = 0 := by
  unfold round_magnitude
  have : round_half_even ((0 : ℚ) / ulp 0) = 0 := by
    rw [zero_div]
    exact_mod_cast round_half_even_intCast 0
  rw [this]; simp

/-- A magnitude is not rounded above the power of two over it. -/
theorem round_magnitude_le_binade (m : ℚ) :
    round_magnitude m ≤ (2 : ℚ) ^ (max (Int.log 2 m) (-1022) + 1) := by
  unfold round_magnitude
  set k := max (Int.log 2 m) (-1022) with hk
  have hu : ulp m = (2 : ℚ) ^ (k - 52) := rfl
  have hlt : m < (2 : ℚ) ^ (Int.log 2 m + 1) := by
    have := Int.lt_zpow_succ_log_self (R := ℚ) (b := 2) (by norm_num) m
    simpa using this
  have hle : (2 : ℚ) ^ (Int.log 2 m + 1) ≤ (2 : ℚ) ^ (k + 1) := by
    apply zpow_le_zpow_right₀ (by norm_num)
    have : Int.log 2 m ≤ k := le_max_left _ _
    omega
  have hsplit : (2 : ℚ) ^ (k + 1) = ((2 ^ 53 : ℤ) : ℚ) * (2 : ℚ) ^ (k - 52) := by
    have : k + 1 = 53 + (k - 52) := by ring
    rw [this, zpow_add₀ (by norm_num : (2 : ℚ) ≠ 0)]
    norm_num
  have hq : m / ulp m ≤ ((2 ^ 53 : ℤ) : ℚ) := by
    rw [div_le_iff₀ (ulp_pos m), hu, ← hsplit]
    linarith
  have := round_half_even_le_of_le_intCast hq
  have h2 : (round_half_even (m / ulp m) : ℚ) ≤ ((2 ^ 53 : ℤ) : ℚ) := by exact_mod_cast this
  calc (round_half_even (m / ulp m) : ℚ) * ulp m ≤ ((2 ^ 53 : ℤ) : ℚ) * ulp m :=
      mul_le_mul_of_nonneg_right h2 (ulp_pos m).le
    _ = (2 : ℚ) ^ (k + 1) := by rw [hu]; exact hsplit.symm

/-- A normal magnitude is not rounded below the power of two under it. -/
theorem binade_le_round_magnitude (m : ℚ) (hm : 0 < m) (hn : -1022 < Int.log 2 m) :
    (2 : ℚ) ^ (Int.log 2 m) ≤ round_magnitude m := by
  unfold round_magnitude
  have hk : max (Int.log 2 m) (-1022) = Int.log 2 m := max_eq_left hn.le
  have hu : ulp m = (2 : ℚ) ^ (Int.log 2 m - 52) := by unfold ulp; rw [hk]
  have hge : (2 : ℚ) ^ (Int.log 2 m) ≤ m := by
    have := Int.zpow_log_le_self (R := ℚ) (b := 2) (by norm_num) hm
    simpa using this
  have hsplit : (2 : ℚ) ^ (Int.log 2 m) = ((2 ^ 52 : ℤ) : ℚ) * (2 : ℚ) ^ (Int.log 2 m - 52) := by
    have : Int.log 2 m = 52 + (Int.log 2 m - 52) := by ring
    conv_lhs => rw [this, zpow_add₀ (by norm_num : (2 : ℚ) ≠ 0)]
    norm_num
  have hq : ((2 ^ 52 : ℤ) : ℚ) ≤ m / ulp m := by
    rw [le_div_iff₀ (ulp_pos m), hu, ← hsplit]
    exact hge
  have := intCast_le_round_half_even hq
  have h2 : ((2 ^ 52 : ℤ) : ℚ) ≤ (round_half_even (m / ulp m) : ℚ) := by exact_mod_cast this
  calc (2 : ℚ) ^ (Int.log 2 m) = ((2 ^ 52 : ℤ) : ℚ) * ulp m := by rw [hu]; exact hsplit
    _ ≤ (round_half_even (m / ulp m) : ℚ) * ulp m :=
      mul_le_mul_of_nonneg_right h2 (ulp_pos m).le

/-- Rounding of magnitudes keeps the order. -/
theorem round_magnitude_mono {x y : ℚ} (hx : 0 ≤ x) (h : x ≤ y) :
    round_magnitude x ≤ round_magnitude y := by
  rcases eq_or_lt_of_le hx with h0 | hpos
  · rw [← h0, round_magnitude_zero]
    exact round_magnitude_nonneg (hx.trans h)
  · have hypos : 0 < y := lt_of_lt_of_le hpos h
    have hlog : Int.log 2 x ≤ Int.log 2 y := Int.log_mono_right hpos h
    have hmax : max (Int.log 2 x) (-1022) ≤ max (Int.log 2 y) (-1022) :=
      max_le_max hlog le_rfl
    rcases eq_or_lt_of_le hmax with heq | hlt
    · have hu : ulp x = ulp y := by unfold ulp; rw [heq]
      unfold round_magnitude
      rw [hu]
      have hq : x / ulp y ≤ y / ulp y := div_le_div_of_nonneg_right h (ulp_pos y).le
      have := round_half_even_mono hq
      have h2 : (round_half_even (x / ulp y) : ℚ) ≤ (round_half_even (y / ulp y) : ℚ) := by
        exact_mod_cast this
      exact mul_le_mul_of_nonneg_right h2 (ulp_pos y).le
    · have hy : -1022 < Int.log 2 y := by
        by_contra hc
        have : max (Int.log 2 y) (-1022) = -1022 := max_eq_right (not_lt.mp hc)
        rw [this] at hlt
        have := le_max_right (Int.log 2 x) (-1022)
        omega
      have hky : max (Int.log 2 y) (-1022) = Int.log 2 y := max_eq_left hy.le
      rw [hky] at hlt
      calc round_magnitude x ≤ (2 : ℚ) ^ (max (Int.log 2 x) (-1022) + 1) :=
            round_magnitude_le_binade x
        _ ≤ (2 : ℚ) ^ (Int.log 2 y) := zpow_le_zpow_right₀ (by norm_num) (by omega)
        _ ≤ round_magnitude y := binade_le_round_magnitude y hypos hy

/-- Rounding to binary64 keeps the order. -/
theorem round_binary64_mono {x y : ℚ} (h : x ≤ y) : round_binary64 x ≤ round_binary64 y := by
  unfold round_binary64
  by_cases hx : x < 0
  · by_cases hy : y < 0
    · simp only [hx, hy, if_true]
      have := round_magnitude_mono (x := -y) (y := -x) (by linarith) (by linarith)
      linarith
    · simp only [hx, hy, if_true, if_false]
      have h1 := round_magnitude_nonneg (m := -x) (by linarith)
      have h2 := round_magnitude_nonneg (m := y) (by linarith)
      linarith
  · have hy : ¬ y < 0 := by linarith
    simp only [hx, hy, if_false]
    exact round_magnitude_mono (by linarith) h

/-- Zero is a binary64 value. -/
theorem round_binary64_zero : round_binary64 0 = 0 := by
  unfold round_binary64
  simp [round_magnitude_zero]


/-- The overflow threshold is positive. -/
theorem overflow_threshold_pos : 0 < overflow_threshold := by
  unfold overflow_threshold
  positivity

/-- Results of exact values in order compare in order. -/
theorem Double.of_exact_le_of_exact (z1 z2 : Bool) {r1 r2 : ℚ} (h : r1 ≤ r2) :
    Double.le (Double.of_exact z1 r1) (Double.of_exact z2 r2) = true := by
  have hv := round_binary64_mono h
  have hM := overflow_threshold_pos
  unfold Double.of_exact
  split_ifs <;> simp [Double.le, Double.toRat] <;> linarith

/-- A finite value compares below the result of an exact value above it. -/
theorem Double.le_of_exact (z : Bool) {d : Double} {r : ℚ} (hf : d.is_finite = true)
    (hd : d.is_binary64) (h : d.toRat ≤ r) : Double.le d (Double.of_exact z r) = true := by
  have hM := overflow_threshold_pos
  cases d with
  | nan => simp [Double.is_finite] at hf
  | inf s => simp [Double.is_finite] at hf
  | negzero =>
    have hv := round_binary64_mono h
    simp only [Double.toRat, round_binary64_zero] at hv
    unfold Double.of_exact
    split_ifs <;> simp [Double.le, Double.toRat] <;> linarith
  | finite v =>
    obtain ⟨hfix, hlt⟩ := hd
    have hv := round_binary64_mono h
    simp only [Double.toRat, hfix] at hv
    have habs := abs_lt.mp hlt
    unfold Double.of_exact
    split_ifs <;> simp [Double.le, Double.toRat] <;> linarith

/-- A result below the overflow threshold is finite and is the rounded
exact value. -/
theorem Double.of_exact_finite (z : Bool) {r : ℚ}
    (h : |round_binary64 r| < overflow_threshold) :
    (Double.of_exact z r).is_finite = true ∧
      (Double.of_exact z r).toRat = round_binary64 r := by
  have habs := abs_lt.mp h
  unfold Double.of_exact
  split_ifs with h1 h2 h3 <;> first
    | linarith
    | simp [Double.is_finite, Double.toRat, h3]

/-- The sum of finite values is the rounded exact sum. -/
theorem Double.add_of_finite {a b : Double} (ha : a.is_finite = true) (hb : b.is_finite = true) :
    a.add b = Double.of_exact (a.signbit && b.signbit) (a.toRat + b.toRat) := by
  cases a <;> cases b <;> simp [Double.is_finite] at ha hb <;> rfl

/-- The product of finite values is the rounded exact product. -/
theorem Double.mul_of_finite {a b : Double} (ha : a.is_finite = true) (hb : b.is_finite = true) :
    a.mul b = Double.of_exact (xor a.signbit b.signbit) (a.toRat * b.toRat) := by
  cases a <;> cases b <;> simp [Double.is_finite] at ha hb <;> rfl

/-- The number of a binary64 value is left as it is by rounding. -/
theorem Double.toRat_fixed {d : Double} (hd : d.is_binary64) :
    round_binary64 d.toRat = d.toRat ∧ |d.toRat| < overflow_threshold := by
  have hM := overflow_threshold_pos
  cases d with
  | finite v => exact hd
  | nan => simp [Double.toRat, round_binary64_zero, hM]
  | inf s => simp [Double.toRat, round_binary64_zero, hM]
  | negzero => simp [Double.toRat, round_binary64_zero, hM]

/-- The comparison of finite values is the order of their numbers. -/
theorem Double.le_toRat {a b : Double} (ha : a.is_finite = true) (hb : b.is_finite = true)
    (h : Double.le a b = true) : a.toRat ≤ b.toRat := by
  cases a <;> cases b <;> simp [Double.is_finite] at ha hb <;>
    simp [Double.le, Double.toRat] at h ⊢ <;> exact h

/-- The bounds of the scaled progress value. -/
theorem Double.scaled_progress_bounds {amount progress_start progress_amount : Double}
    (hs : progress_start.is_binary64) (hp : progress_amount.is_binary64)
    (hfa : amount.is_finite = true) (hfs : progress_start.is_finite = true)
    (hfp : progress_amount.is_finite = true)
    (h0 : Double.le (Double.finite 0) amount = true)
    (h1 : Double.le amount (Double.finite 1) = true)
    (hpa : Double.le (Double.finite 0) progress_amount = true) :
    Double.le progress_start (progress_start.add (amount.mul progress_amount)) = true ∧
    Double.le (progress_start.add (amount.mul progress_amount))
      (progress_start.add progress_amount) = true := by
  have ha0 : 0 ≤ amount.toRat := Double.le_toRat (a := Double.finite 0) rfl hfa h0
  have ha1 : amount.toRat ≤ 1 := Double.le_toRat (b := Double.finite 1) hfa rfl h1
  have hp0 : 0 ≤ progress_amount.toRat := Double.le_toRat (a := Double.finite 0) rfl hfp hpa
  obtain ⟨hpfix, hplt⟩ := Double.toRat_fixed hp
  have hprod_lo : 0 ≤ amount.toRat * progress_amount.toRat := mul_nonneg ha0 hp0
  have hprod_hi : amount.toRat * progress_amount.toRat ≤ progress_amount.toRat := by nlinarith
  have hr_lo : 0 ≤ round_binary64 (amount.toRat * progress_amount.toRat) := by
    have := round_binary64_mono hprod_lo
    rwa [round_binary64_zero] at this
  have hr_hi : round_binary64 (amount.toRat * progress_amount.toRat) ≤ progress_amount.toRat := by
    have := round_binary64_mono hprod_hi
    rwa [hpfix] at this
  have hr_abs : |round_binary64 (amount.toRat * progress_amount.toRat)| < overflow_threshold := by
    have := abs_lt.mp hplt
    rw [abs_lt]
    constructor <;> linarith [overflow_threshold_pos]
  rw [Double.mul_of_finite hfa hfp]
  obtain ⟨hprod_fin, hprod_val⟩ :=
    Double.of_exact_finite (xor amount.signbit progress_amount.signbit) hr_abs
  rw [Double.add_of_finite hfs hprod_fin, Double.add_of_finite hfs hfp, hprod_val]
  constructor
  · exact Double.le_of_exact _ hfs hs (by linarith)
  · exact Double.of_exact_le_of_exact _ _ (by linarith)


/-- An exact result that is a binary64 value already is the result. -/
theorem Double.of_exact_of_fixed (z : Bool) {v : ℚ} (hfix : round_binary64 v = v)
    (hlt : |v| < overflow_threshold) (hz : v = 0 → z = false) :
    Double.of_exact z v = Double.finite v := by
  have habs := abs_lt.mp hlt
  have hM := overflow_threshold_pos
  by_cases h3 : v = 0
  · have hzf := hz h3
    subst hzf
    subst h3
    simp [Double.of_exact, round_binary64_zero, not_le.mpr hM]
  · simp [Double.of_exact, hfix, not_le.mpr habs.2, not_le.mpr habs.1, h3]

/-- The value of `zero + amount * one`: `amount`, but the positive zero for the
negative one. -/
theorem Double.scaled_by_defaults (amount : Double) (ha : amount.is_binary64)
    (zero one : ℚ) (hzero : zero = 0) (hone : one = 1) :
    (amount = Double.negzero →
      (Double.finite zero).add (amount.mul (Double.finite one)) = Double.finite zero) ∧
    (amount ≠ Double.negzero →
      (Double.finite zero).add (amount.mul (Double.finite one)) = amount) ∧
    (amount ≠ Double.nan →
      Double.eq ((Double.finite zero).add (amount.mul (Double.finite one))) amount = true) := by
  have hM := overflow_threshold_pos
  subst hzero hone
  have hmz : Double.negzero.mul (Double.finite 1) = Double.negzero := by
    rw [Double.mul_of_finite (a := Double.negzero) (b := Double.finite 1) rfl rfl]
    simp [Double.of_exact, Double.signbit, Double.toRat, round_binary64_zero, not_le.mpr hM]
  have haz : (Double.finite 0).add Double.negzero = Double.finite 0 := by
    rw [Double.add_of_finite (a := Double.finite 0) (b := Double.negzero) rfl rfl]
    simp [Double.of_exact, Double.signbit, Double.toRat, round_binary64_zero, not_le.mpr hM]
  cases amount with
  | nan =>
    refine ⟨fun h => Double.noConfusion h, fun _ => rfl, fun h => absurd rfl h⟩
  | inf s =>
    have hm : (Double.inf s).mul (Double.finite 1) = Double.inf s := by
      show (if (Double.finite (1 : ℚ)).is_zero then Double.nan
        else Double.inf (xor s (Double.finite (1 : ℚ)).signbit)) = Double.inf s
      norm_num [Double.is_zero, Double.signbit]
    rw [hm]
    refine ⟨fun h => Double.noConfusion h, fun _ => rfl, fun _ => ?_⟩
    show (s == s) = true
    simp
  | negzero =>
    rw [hmz, haz]
    refine ⟨fun _ => rfl, fun h => absurd rfl h, fun _ => ?_⟩
    show decide ((Double.finite (0 : ℚ)).toRat = Double.negzero.toRat) = true
    simp [Double.toRat]
  | finite v =>
    obtain ⟨hfix, hlt⟩ := ha
    have hm : (Double.finite v).mul (Double.finite 1) = Double.finite v := by
      rw [Double.mul_of_finite (a := Double.finite v) (b := Double.finite 1) rfl rfl]
      show Double.of_exact _ (v * 1) = Double.finite v
      rw [mul_one]
      apply Double.of_exact_of_fixed _ hfix hlt
      intro hv
      simp [Double.signbit, hv]
    have hadd : (Double.finite 0).add (Double.finite v) = Double.finite v := by
      rw [Double.add_of_finite (a := Double.finite 0) (b := Double.finite v) rfl rfl]
      show Double.of_exact _ (0 + v) = _
      rw [zero_add]
      apply Double.of_exact_of_fixed _ hfix hlt
      intro hv
      simp [Double.signbit]
    rw [hm, hadd]
    refine ⟨fun h => Double.noConfusion h, fun _ => rfl, fun _ => ?_⟩
    show decide ((Double.finite v).toRat = (Double.finite v).toRat) = true
    simp

/-- Rounding of a normal magnitude between `2 ^ k` and `2 ^ (k + 1)`. -/
theorem round_binary64_of_binade {m : ℚ} (k : ℤ) (hlo : (2 : ℚ) ^ k ≤ m)
    (hhi : m < (2 : ℚ) ^ (k + 1)) (hk : -1022 ≤ k) :
    round_binary64 m = round_half_even (m / (2 : ℚ) ^ (k - 52)) * (2 : ℚ) ^ (k - 52) := by
  have hpos : 0 < m := lt_of_lt_of_le (by positivity) hlo
  have hlog : Int.log 2 m = k := by
    apply le_antisymm
    · have := (Int.lt_zpow_iff_log_lt (R := ℚ) (b := 2) (by norm_num) hpos).mp
        (by simpa using hhi)
      omega
    · exact (Int.zpow_le_iff_le_log (R := ℚ) (b := 2) (by norm_num) hpos).mp
        (by simpa using hlo)
  have hu : ulp m = (2 : ℚ) ^ (k - 52) := by
    unfold ulp
    rw [hlog, max_eq_left hk]
  unfold round_binary64 round_magnitude
  rw [if_neg (not_lt.mpr hpos.le), hu]


/-- An integer multiple of the spacing is left as it is. -/
theorem round_binary64_of_scaled_int {m : ℚ} (k n : ℤ) (hlo : (2 : ℚ) ^ k ≤ m)
    (hhi : m < (2 : ℚ) ^ (k + 1)) (hk : -1022 ≤ k) (hn : m = n * (2 : ℚ) ^ (k - 52)) :
    round_binary64 m = m := by
  rw [round_binary64_of_binade k hlo hhi hk]
  have hq : m / (2 : ℚ) ^ (k - 52) = (n : ℚ) := by
    rw [hn]
    field_simp
  rw [hq, round_half_even_intCast, ← hn]

/-- An integer multiple of the spacing in the normal range is a binary64
value. -/
theorem Double.is_binary64_of_scaled_int {m : ℚ} (k n : ℤ) (hlo : (2 : ℚ) ^ k ≤ m)
    (hhi : m < (2 : ℚ) ^ (k + 1)) (hk : -1022 ≤ k) (hk2 : k < 1024)
    (hn : m = n * (2 : ℚ) ^ (k - 52)) : (Double.finite m).is_binary64 := by
  refine ⟨round_binary64_of_scaled_int k n hlo hhi hk hn, ?_⟩
  have hpos : 0 < m := lt_of_lt_of_le (by positivity) hlo
  rw [abs_of_pos hpos]
  have : (2 : ℚ) ^ (k + 1) ≤ overflow_threshold := by
    unfold overflow_threshold
    exact zpow_le_zpow_right₀ (by norm_num) (by omega)
  linarith

/-- A magnitude in the exponent range is below the overflow threshold. -/
theorem abs_lt_overflow_threshold {v : ℚ} (k : ℤ) (hpos : 0 ≤ v) (hhi : v < (2 : ℚ) ^ (k + 1))
    (hk : k < 1024) : |v| < overflow_threshold := by
  rw [abs_of_nonneg hpos]
  have : (2 : ℚ) ^ (k + 1) ≤ overflow_threshold := by
    unfold overflow_threshold
    exact zpow_le_zpow_right₀ (by norm_num) (by omega)
  linarith

/-- The result for an exact value that rounds to a nonzero number in range. -/
theorem Double.of_exact_eq_finite (z : Bool) {r v : ℚ} (hr : round_binary64 r = v)
    (hv : v ≠ 0) (hlt : |v| < overflow_threshold) : Double.of_exact z r = Double.finite v := by
  have habs := abs_lt.mp hlt
  simp [Double.of_exact, hr, not_le.mpr habs.2, not_le.mpr habs.1, hv]

end Core

namespace Seg3D

open Core

/-! ## Progress callback -/

/-- The one value `update_progress` emits. -/
theorem emitted_progress_update_progress (amount progress_start progress_amount : Double) :
    emitted_progress
        (ReconstructionToolPrivate.update_progress amount progress_start progress_amount) =
      [progress_start.add (amount.mul progress_amount)] := rfl

/-- The nearest `double` to 0.2 is a binary64 value. -/
theorem double_0_2_is_binary64 : double_0_2.is_binary64 :=
  Double.is_binary64_of_scaled_int (-3) 7205759403792794 (by norm_num) (by norm_num)
    (by norm_num) (by norm_num) (by norm_num)

/-- The nearest `double` to 0.1 is a binary64 value. -/
theorem double_0_1_is_binary64 : double_0_1.is_binary64 :=
  Double.is_binary64_of_scaled_int (-4) 7205759403792794 (by norm_num) (by norm_num)
    (by norm_num) (by norm_num) (by norm_num)

/-- In `double`, 0.1 + 1.0 * 0.2 is 0.30000000000000004: the exact sum lies
half way between two values and is rounded up to the even one. -/
theorem double_0_1_add_0_2 :
    double_0_1.add ((Double.finite 1).mul double_0_2) =
      Double.finite (5404319552844596 / 2 ^ 54) := by
  have hv2 := double_0_2_is_binary64
  have hm : (Double.finite 1).mul double_0_2 = double_0_2 := by
    unfold double_0_2 at hv2 ⊢
    rw [Double.mul_of_finite (a := Double.finite 1) (b := Double.finite _) rfl rfl]
    show Double.of_exact _ (1 * _) = _
    rw [one_mul]
    exact Double.of_exact_of_fixed _ hv2.1 hv2.2 (fun h => by norm_num [Double.toRat] at h)
  rw [hm]
  unfold double_0_1 double_0_2
  rw [Double.add_of_finite (a := Double.finite _) (b := Double.finite _) rfl rfl]
  show Double.of_exact _ (3602879701896397 / 2 ^ 55 + 3602879701896397 / 2 ^ 54) = _
  apply Double.of_exact_eq_finite
  · rw [round_binary64_of_binade (-2) (by norm_num) (by norm_num) (by norm_num)]
    have hq : ((3602879701896397 / 2 ^ 55 + 3602879701896397 / 2 ^ 54 : ℚ)) /
        (2 : ℚ) ^ ((-2 : ℤ) - 52) = 10808639105689191 / 2 := by norm_num
    have hf : ⌊(10808639105689191 / 2 : ℚ)⌋ = 5404319552844595 := by
      rw [Int.floor_eq_iff]; norm_num
    have hr : round_half_even (10808639105689191 / 2 : ℚ) = 5404319552844596 := by
      unfold round_half_even
      rw [hf]
      norm_num
    rw [hq, hr]
    norm_num
  · norm_num
  · exact abs_lt_overflow_threshold (-2) (by norm_num) (by norm_num) (by norm_num)

/-- C17, as stated, fails in two ways. With amount 0, start 0 and an infinite
progress_amount, inside the stated conditions, the product is a NaN and so is
the emitted value, which compares neither above the start nor below the sum.
With amount 1.0, start 0.1 and progress_amount 0.2, all binary64 values, the
emitted value is 0.30000000000000004, above the sum of start and
progress_amount as numbers. -/
theorem update_progress_bounds_fail_as_stated :
    (Double.le (Double.finite 0) (Double.finite 0) = true ∧
      Double.le (Double.finite 0) (Double.finite 1) = true ∧
      Double.le (Double.finite 0) (Double.inf false) = true ∧
      emitted_progress (ReconstructionToolPrivate.update_progress (Double.finite 0)
        (Double.finite 0) (Double.inf false)) = [Double.nan] ∧
      Double.le (Double.finite 0) Double.nan = false ∧
      Double.le Double.nan ((Double.finite 0).add (Double.inf false)) = false) ∧
    (double_0_1.is_binary64 ∧ double_0_2.is_binary64 ∧
      Double.le (Double.finite 0) (Double.finite 1) = true ∧
      Double.le (Double.finite 1) (Double.finite 1) = true ∧
      Double.le (Double.finite 0) double_0_2 = true ∧
      emitted_progress (ReconstructionToolPrivate.update_progress (Double.finite 1)
        double_0_1 double_0_2) = [Double.finite (5404319552844596 / 2 ^ 54)] ∧
      double_0_1.toRat + double_0_2.toRat < 5404319552844596 / 2 ^ 54) := by
  refine ⟨⟨?_, ?_, rfl, ?_, rfl, rfl⟩, double_0_1_is_binary64, double_0_2_is_binary64,
    ?_, ?_, ?_, ?_, ?_⟩
  · simp [Double.le, Double.toRat]
  · simp [Double.le, Double.toRat]
  · rw [emitted_progress_update_progress]
    have hm : (Double.finite 0).mul (Double.inf false) = Double.nan := by
      show (if (Double.finite (0 : ℚ)).is_zero then Double.nan
        else Double.inf (xor (Double.finite (0 : ℚ)).signbit false)) = Double.nan
      simp [Double.is_zero]
    rw [hm]
    rfl
  · simp [Double.le, Double.toRat]
  · simp [Double.le, Double.toRat]
  · norm_num [Double.le, Double.toRat, double_0_2]
  · rw [emitted_progress_update_progress, double_0_1_add_0_2]
  · norm_num [Double.toRat, double_0_1, double_0_2]

/-- C17, amended: for `double` arguments, `update_progress( amount,
progress_start, progress_amount )` emits exactly one `update_progress_signal_`,
with the `double` value of `progress_start + amount * progress_amount`. With
the default start 0 and amount 1 the value is `amount` itself (the positive
zero for a negative zero), so it compares equal to every `amount` that is not
a NaN. For finite arguments with `0 <= amount <= 1` and `progress_amount >= 0`
the value lies between `progress_start` and the `double` sum
`progress_start + progress_amount`. -/
theorem update_progress_emits_double_value (amount progress_start progress_amount : Double)
    (ha : amount.is_binary64) (hs : progress_start.is_binary64)
    (hp : progress_amount.is_binary64) :
    emitted_progress
        (ReconstructionToolPrivate.update_progress amount progress_start progress_amount) =
      [progress_start.add (amount.mul progress_amount)] ∧
    ((amount = Double.negzero →
        emitted_progress (ReconstructionToolPrivate.update_progress_omitted amount) =
          [Double.finite 0.0]) ∧
      (amount ≠ Double.negzero →
        emitted_progress (ReconstructionToolPrivate.update_progress_omitted amount) =
          [amount]) ∧
      (amount ≠ Double.nan →
        ∃ value,
          emitted_progress (ReconstructionToolPrivate.update_progress_omitted amount) =
            [value] ∧
          Double.eq value amount = true)) ∧
    (amount.is_finite = true → progress_start.is_finite = true →
      progress_amount.is_finite = true →
      Double.le (Double.finite 0) amount = true → Double.le amount (Double.finite 1) = true →
      Double.le (Double.finite 0) progress_amount = true →
      Double.le progress_start (progress_start.add (amount.mul progress_amount)) = true ∧
      Double.le (progress_start.add (amount.mul progress_amount))
        (progress_start.add progress_amount) = true) := by
  have hdef := Double.scaled_by_defaults amount ha 0.0 1.0 (by norm_num) (by norm_num)
  refine ⟨rfl, ⟨?_, ?_, ?_⟩, ?_⟩
  · intro h
    unfold ReconstructionToolPrivate.update_progress_omitted
    rw [emitted_progress_update_progress, hdef.1 h]
  · intro h
    unfold ReconstructionToolPrivate.update_progress_omitted
    rw [emitted_progress_update_progress, hdef.2.1 h]
  · intro h
    unfold ReconstructionToolPrivate.update_progress_omitted
    rw [emitted_progress_update_progress]
    exact ⟨_, rfl, hdef.2.2 h⟩
  · intro hfa hfs hfp h0 h1 hpa
    exact Double.scaled_progress_bounds hs hp hfa hfs hfp h0 h1 hpa

/-- In `double`, 1/4 + 3/8 * 1/2 is 7/16, without rounding error. -/
theorem double_quarter_add_scaled :
    (Double.finite (1 / 4)).add ((Double.finite (3 / 8)).mul (Double.finite (1 / 2))) =
      Double.finite (7 / 16) := by
  have hm : (Double.finite (3 / 8)).mul (Double.finite (1 / 2)) = Double.finite (3 / 16) := by
    rw [Double.mul_of_finite (a := Double.finite _) (b := Double.finite _) rfl rfl]
    show Double.of_exact _ (3 / 8 * (1 / 2)) = _
    have hx : (3 / 8 * (1 / 2) : ℚ) = 3 / 16 := by norm_num
    rw [hx]
    apply Double.of_exact_eq_finite
    · exact round_binary64_of_scaled_int (-3) 6755399441055744 (by norm_num) (by norm_num)
        (by norm_num) (by norm_num)
    · norm_num
    · exact abs_lt_overflow_threshold (-3) (by norm_num) (by norm_num) (by norm_num)
  rw [hm, Double.add_of_finite (a := Double.finite _) (b := Double.finite _) rfl rfl]
  show Double.of_exact _ (1 / 4 + 3 / 16) = _
  have hx : (1 / 4 + 3 / 16 : ℚ) = 7 / 16 := by norm_num
  rw [hx]
  apply Double.of_exact_eq_finite
  · exact round_binary64_of_scaled_int (-2) 7881299347898368 (by norm_num) (by norm_num)
      (by norm_num) (by norm_num)
  · norm_num
  · exact abs_lt_overflow_threshold (-2) (by norm_num) (by norm_num) (by norm_num)

/-- Witness of C17: amount 3/8 of a step of 1/2 that starts at 1/4, all
binary64 values: the one value emitted is 7/16, between 1/4 and the `double`
sum of 1/4 and 1/2; with the defaults the value emitted is 3/8. -/
theorem update_progress_emits_double_value_witness :
    (Double.finite (3 / 8)).is_binary64 ∧ (Double.finite (1 / 4)).is_binary64 ∧
    (Double.finite (1 / 2)).is_binary64 ∧
    emitted_progress (ReconstructionToolPrivate.update_progress (Double.finite (3 / 8))
      (Double.finite (1 / 4)) (Double.finite (1 / 2))) = [Double.finite (7 / 16)] ∧
    Double.le (Double.finite (1 / 4)) (Double.finite (7 / 16)) = true ∧
    Double.le (Double.finite (7 / 16))
      ((Double.finite (1 / 4)).add (Double.finite (1 / 2))) = true ∧
    emitted_progress (ReconstructionToolPrivate.update_progress_omitted
      (Double.finite (3 / 8))) = [Double.finite (3 / 8)] := by
  have ha : (Double.finite (3 / 8)).is_binary64 :=
    Double.is_binary64_of_scaled_int (-2) 6755399441055744 (by norm_num) (by norm_num)
      (by norm_num) (by norm_num) (by norm_num)
  have hs : (Double.finite (1 / 4)).is_binary64 :=
    Double.is_binary64_of_scaled_int (-2) 4503599627370496 (by norm_num) (by norm_num)
      (by norm_num) (by norm_num) (by norm_num)
  have hp : (Double.finite (1 / 2)).is_binary64 :=
    Double.is_binary64_of_scaled_int (-1) 4503599627370496 (by norm_num) (by norm_num)
      (by norm_num) (by norm_num) (by norm_num)
  have h := update_progress_emits_double_value (Double.finite (3 / 8)) (Double.finite (1 / 4))
    (Double.finite (1 / 2)) ha hs hp
  have hb := h.2.2 rfl rfl rfl (by norm_num [Double.le, Double.toRat])
    (by norm_num [Double.le, Double.toRat]) (by norm_num [Double.le, Double.toRat])
  rw [double_quarter_add_scaled] at hb
  have h1 := h.1
  rw [double_quarter_add_scaled] at h1
  exact ⟨ha, hs, hp, h1, hb.1, hb.2, h.2.1.2.1 (fun hz => Double.noConfusion hz)⟩

end Seg3D
